import Mathlib

/-!
Verification of the CRT display simulator's state-update engine and
compositing pipeline.  The Rust sources are shallowly embedded: `f32`/`f64`
values are modelled as exact rationals (`ℚ`), machine integers as `Int`/`Nat`
with explicit saturating casts, fallible code returns an explicit
`Option String` error channel, and in-place mutation becomes explicit state
threading (an errored step still returns the state as mutated up to the
failure point, matching Rust's `&mut` semantics).
-/

namespace CrtSim

/-- Payload of a dispatched application event (`JsValue` argument of
`dispatch_event_with`). -/
inductive EvVal where
  | num (v : ℚ)
  | int (v : Int)
  | str (s : String)
  | bool (b : Bool)
  | unit
deriving DecidableEq

/-- One dispatched application event: the event id string passed to
`dispatch_event` / `dispatch_event_with` together with its payload. -/
structure Ev where
  id : String
  val : EvVal
deriving DecidableEq

/-- A JavaScript value carried by a custom event: either a number or a
non-numeric (string) payload. -/
inductive JsVal where
  | num (v : ℚ)
  | str (s : String)
deriving DecidableEq

/-- `JsValue::as_f64`: `some` for numbers, `none` for non-numeric payloads. -/
def JsVal.as_f64 : JsVal → Option ℚ
  | .num v => some v
  | .str _ => none

/-- The externally injected custom event (`input.custom_event`): a string
kind and a value. -/
structure CustomEvent where
  kind : String
  value : JsVal
deriving DecidableEq

/-- Rust's saturating, truncating `as i32` cast from a float. -/
def f64_as_i32 (q : ℚ) : Int :=
  let t : Int := if q < 0 then Int.ceil q else Int.floor q
  max (-(2 ^ 31)) (min (2 ^ 31 - 1) t)

/-- Rust's saturating, truncating `as usize` cast from a float
(negative values saturate to 0). -/
def f64_as_usize (q : ℚ) : Nat :=
  if q ≤ 0 then 0 else min (Int.floor q).toNat (2 ^ 64 - 1)

/-- Rust's saturating, truncating `as u32` cast from a float. -/
def f32_as_u32 (q : ℚ) : Nat :=
  if q ≤ 0 then 0 else min (Int.floor q).toNat (2 ^ 32 - 1)

/-- `get_3_f32color_from_int` (src/src/simulation_program.rs lines 822-826 and
src/src/screen-sim-core/src/general_types.rs lines 58-64): decode an `i32`
colour into three channel intensities in `[0,1]`.  The arithmetic right shift
on `i32` is floor division by a power of two and `& 0xFF` keeps the low byte
(`Int.emod` by 256 on the two's-complement value). -/
def get_3_f32color_from_int (color : Int) : List ℚ :=
  [ ((Int.fdiv color (2 ^ 16) : Int) : ℚ) / 255,
    ((Int.emod (Int.fdiv color (2 ^ 8)) 256 : Int) : ℚ) / 255,
    ((Int.emod color 256 : Int) : ℚ) / 255 ]

/-- `AnimationData` as used by src/src/simulation_program.rs: frame stepping
state plus the video geometry.  Only the length of `steps` is observable in
the embedded code, so it is kept as `steps_len`. -/
structure AnimationData where
  steps_len : Nat
  image_width : Nat
  image_height : Nat
  background_width : Nat
  background_height : Nat
  viewport_width : Nat
  viewport_height : Nat
  pixel_width : ℚ
  stretch : Bool
  frame_length : ℚ
  current_frame : Nat
  last_frame_change : ℚ
  needs_buffer_data_load : Bool
deriving DecidableEq

/-- `Size2D<u32>` from src/src/screen-sim-core/src/general_types.rs. -/
structure Size2D where
  width : Nat
  height : Nat
deriving DecidableEq

/-- `VideoInputResources` as used by
src/src/screen-sim/simulation_main_functions.rs (the geometry fields read by
`calculate_far_away_position`). -/
structure VideoInputResources where
  background_size : Size2D
  viewport_size : Size2D
  pixel_width : ℚ
  stretch : Bool
deriving DecidableEq

/-- The `while bound < 1.0 { bound *= 2.0; res *= 2; }` loop of
src/src/simulation_program.rs `calculate_far_away_position`, with explicit
fuel (the loop diverges when the starting bound is not positive). -/
def fap_double_loop_a : Nat → ℚ → Int → Option (ℚ × Int)
  | 0, bound, resolution => if bound < 1 then none else some (bound, resolution)
  | fuel + 1, bound, resolution =>
    if bound < 1 then fap_double_loop_a fuel (bound * 2) (resolution * 2)
    else some (bound, resolution)

/-- The divisor search loop of src/src/simulation_program.rs
`calculate_far_away_position`: decrement `divisor` until it divides
`resolution` or reaches 1. -/
def fap_divisor_loop_a (resolution : Int) (divisor : Int) : Int :=
  if 1 < divisor then
    if Int.emod resolution divisor = 0 then divisor
    else fap_divisor_loop_a resolution (divisor - 1)
  else divisor
termination_by divisor.toNat
decreasing_by
  omega

/-- `calculate_far_away_position` from src/src/simulation_program.rs lines
129-153, over `AnimationData`.  `fuel` bounds the doubling loop; `none`
models its divergence. -/
def calculate_far_away_position_a (fuel : Nat) (animation : AnimationData) : Option ℚ :=
  let width : ℚ := (animation.background_width : ℚ)
  let height : ℚ := (animation.background_height : ℚ)
  let viewport_width_scaled : Nat := f32_as_u32 ((animation.viewport_width : ℚ) / animation.pixel_width)
  let widthRat : ℚ := (viewport_width_scaled : ℚ) / width
  let heightRat : ℚ := (animation.viewport_height : ℚ) / height
  let is_height_bounded : Bool := decide (heightRat < widthRat)
  let boundRat0 : ℚ := if is_height_bounded then heightRat else widthRat
  let resolution0 : Int := (if is_height_bounded then animation.viewport_height else viewport_width_scaled : Nat)
  match fap_double_loop_a fuel boundRat0 resolution0 with
  | none => none
  | some (boundRat1, resolution) =>
    let boundRat2 : ℚ :=
      if !animation.stretch then
        ((fap_divisor_loop_a resolution (f64_as_i32 boundRat1) : Int) : ℚ)
      else boundRat1
    some (1 / 2 + ((resolution : ℚ) / boundRat2) *
      (if is_height_bounded then 12076 / 10000 else 68 / 100 * animation.pixel_width))

/-- The doubling loop of src/src/screen-sim/simulation_main_functions.rs
`calculate_far_away_position` (translated independently of the `_a` copy). -/
def fap_double_loop_b : Nat → ℚ → Int → Option (ℚ × Int)
  | 0, bound, resolution => if bound < 1 then none else some (bound, resolution)
  | fuel + 1, bound, resolution =>
    if bound < 1 then fap_double_loop_b fuel (bound * 2) (resolution * 2)
    else some (bound, resolution)

/-- The divisor search loop of src/src/screen-sim/simulation_main_functions.rs
`calculate_far_away_position` (translated independently of the `_a` copy). -/
def fap_divisor_loop_b (resolution : Int) (divisor : Int) : Int :=
  if 1 < divisor then
    if Int.emod resolution divisor = 0 then divisor
    else fap_divisor_loop_b resolution (divisor - 1)
  else divisor
termination_by divisor.toNat
decreasing_by
  omega

/-- `calculate_far_away_position` from
src/src/screen-sim/simulation_main_functions.rs lines 91-115, over
`VideoInputResources`. -/
def calculate_far_away_position_b (fuel : Nat) (video_input : VideoInputResources) : Option ℚ :=
  let width : ℚ := (video_input.background_size.width : ℚ)
  let height : ℚ := (video_input.background_size.height : ℚ)
  let viewport_width_scaled : Nat := f32_as_u32 ((video_input.viewport_size.width : ℚ) / video_input.pixel_width)
  let widthRat : ℚ := (viewport_width_scaled : ℚ) / width
  let heightRat : ℚ := (video_input.viewport_size.height : ℚ) / height
  let is_height_bounded : Bool := decide (heightRat < widthRat)
  let boundRat0 : ℚ := if is_height_bounded then heightRat else widthRat
  let resolution0 : Int := (if is_height_bounded then video_input.viewport_size.height else viewport_width_scaled : Nat)
  match fap_double_loop_b fuel boundRat0 resolution0 with
  | none => none
  | some (boundRat1, resolution) =>
    let boundRat2 : ℚ :=
      if !video_input.stretch then
        ((fap_divisor_loop_b resolution (f64_as_i32 boundRat1) : Int) : ℚ)
      else boundRat1
    some (1 / 2 + ((resolution : ℚ) / boundRat2) *
      (if is_height_bounded then 12076 / 10000 else 68 / 100 * video_input.pixel_width))

/-- Modelled from the spec: the `BooleanButton` edge tracker (declared in
simulation_state.rs, which is not among the provided sources; spec section
4.1 "EdgeTracker").  `raw` is the sample most recently written by the host's
event listeners; `track_input` shifts the current sample into `previous` and
loads `raw`, as the spec's `track(sample)` prescribes. -/
structure BooleanButton where
  raw : Bool
  current : Bool
  previous : Bool
deriving DecidableEq

/-- EdgeTracker `track`: shift current into previous, load the raw sample. -/
def BooleanButton.track_input (b : BooleanButton) : BooleanButton :=
  { b with previous := b.current, current := b.raw }

/-- EdgeTracker: previous = false and current = true. -/
def BooleanButton.is_just_pressed (b : BooleanButton) : Bool :=
  !b.previous && b.current

/-- EdgeTracker: previous = true and current = false. -/
def BooleanButton.is_just_released (b : BooleanButton) : Bool :=
  b.previous && !b.current

/-- EdgeTracker: current = true. -/
def BooleanButton.is_activated (b : BooleanButton) : Bool :=
  b.current

/-- Modelled from the spec: the `Input` state (declared in
simulation_state.rs, which is not among the provided sources).  Its fields
are reconstructed from every access in src/src/simulation_program.rs: plain
booleans are held keys, `BooleanButton` fields are edge-tracked, and the
transient fields are the scroll delta, mouse position and custom event. -/
structure Input where
  now : ℚ
  mouse_scroll_y : ℚ
  mouse_position_x : Int
  mouse_position_y : Int
  custom_event : CustomEvent
  increase_bright : Bool
  decrease_bright : Bool
  increase_contrast : Bool
  decrease_contrast : Bool
  shift : Bool
  alt : Bool
  input_focused : Bool
  reset_filters : Bool
  reset_speeds : Bool
  reset_position : Bool
  walk_left : Bool
  walk_right : Bool
  walk_up : Bool
  walk_down : Bool
  walk_forward : Bool
  walk_backward : Bool
  turn_left : Bool
  turn_right : Bool
  turn_up : Bool
  turn_down : Bool
  rotate_left : Bool
  rotate_right : Bool
  increase_pixel_scale_x : Bool
  decrease_pixel_scale_x : Bool
  increase_pixel_scale_y : Bool
  decrease_pixel_scale_y : Bool
  increase_pixel_gap : Bool
  decrease_pixel_gap : Bool
  increase_camera_zoom : Bool
  decrease_camera_zoom : Bool
  toggle_pixels_shadow_kind : BooleanButton
  speed_up : BooleanButton
  speed_down : BooleanButton
  mouse_click : BooleanButton
  increase_blur : BooleanButton
  decrease_blur : BooleanButton
  increase_lpp : BooleanButton
  decrease_lpp : BooleanButton
  next_color_representation_kind : BooleanButton
  next_pixel_geometry_kind : BooleanButton
  next_layering_kind : BooleanButton
  showing_pixels_pulse : BooleanButton
  esc : BooleanButton
  space : BooleanButton
  screenshot : BooleanButton
deriving DecidableEq

/-- `ColorChannels` (the four colour-representation modes cycled by
`update_crt_filters`). -/
inductive ColorChannels where
  | Combined
  | Overlapping
  | SplitHorizontal
  | SplitVertical
deriving DecidableEq

/-- `PixelsGeometryKind` (flat squares or volumetric cubes). -/
inductive PixelsGeometryKind where
  | Squares
  | Cubes
deriving DecidableEq

/-- `RenderLayers` (the five layering kinds; `LENGTH` in the Rust enum is
only a counter, kept here as the modulus 5).  The variant order is the one
listed by the `match` in src/src/simulation_program.rs lines 384-415. -/
inductive RenderLayers where
  | ShadowOnly
  | SolidOnly
  | ShadowWithSolidBackground75
  | ShadowWithSolidBackground50
  | ShadowWithSolidBackground25
deriving DecidableEq

/-- Numeric value of a `RenderLayers` variant (the Rust `as i32` coercion). -/
def RenderLayers.toIdx : RenderLayers → Nat
  | .ShadowOnly => 0
  | .SolidOnly => 1
  | .ShadowWithSolidBackground75 => 2
  | .ShadowWithSolidBackground50 => 3
  | .ShadowWithSolidBackground25 => 4

/-- `RenderLayers` from a numeric index (the Rust `.into()` coercion; indices
are always taken modulo 5 by the caller). -/
def RenderLayers.ofIdx : Nat → RenderLayers
  | 0 => .ShadowOnly
  | 1 => .SolidOnly
  | 2 => .ShadowWithSolidBackground75
  | 3 => .ShadowWithSolidBackground50
  | _ => .ShadowWithSolidBackground25

/-- `CrtFilters`: the full CRT parameter set, fields reconstructed from every
access in src/src/simulation_program.rs (the struct itself is declared in
simulation_state.rs, which is not among the provided sources). -/
structure CrtFilters where
  extra_bright : ℚ
  extra_contrast : ℚ
  light_color : Int
  brightness_color : Int
  blur_passes : Nat
  lines_per_pixel : Nat
  cur_pixel_scale_x : ℚ
  cur_pixel_scale_y : ℚ
  cur_pixel_width : ℚ
  cur_pixel_gap : ℚ
  change_speed : ℚ
  color_channels : ColorChannels
  showing_pixels_pulse : Bool
  pixels_pulse : ℚ
  showing_diffuse_foreground : Bool
  showing_solid_background : Bool
  solid_color_weight : ℚ
  layering_kind : RenderLayers
  pixel_shadow_kind : Nat
  pixels_geometry_kind : PixelsGeometryKind
deriving DecidableEq

/-- `PIXEL_MANIPULATION_BASE_SPEED` from src/src/simulation_program.rs. -/
def pixel_manipulation_base_speed : ℚ := 20

/-- `TURNING_BASE_SPEED` from src/src/simulation_program.rs. -/
def turning_base_speed : ℚ := 3

/-- `MOVEMENT_BASE_SPEED` from src/src/simulation_program.rs. -/
def movement_base_speed : ℚ := 10

/-- `MOVEMENT_SPEED_FACTOR` from src/src/simulation_program.rs. -/
def movement_speed_factor : ℚ := 50

/-- Modelled from the spec: `CrtFilters::new` (simulation_state.rs is not
among the provided sources).  The spec fixes the shape of the default state
(combined colour mode, shadow layer shown, bounded parameters at neutral
values) but not every number; the values chosen here are neutral ones inside
each parameter's documented bounds, and `change_speed` is the constructor's
argument as in every call site. -/
def CrtFilters.new (changeSpeed : ℚ) : CrtFilters :=
  { extra_bright := 0
    extra_contrast := 1
    light_color := 0xFFFFFF
    brightness_color := 0xFFFFFF
    blur_passes := 0
    lines_per_pixel := 1
    cur_pixel_scale_x := 0
    cur_pixel_scale_y := 0
    cur_pixel_width := 1
    cur_pixel_gap := 0
    change_speed := changeSpeed
    color_channels := .Combined
    showing_pixels_pulse := false
    pixels_pulse := 0
    showing_diffuse_foreground := true
    showing_solid_background := false
    solid_color_weight := 1
    layering_kind := .ShadowOnly
    pixel_shadow_kind := 0
    pixels_geometry_kind := .Squares }

/-- A 3-vector of rationals (`glm::vec3` in the sources). -/
structure Vec3 where
  x : ℚ
  y : ℚ
  z : ℚ
deriving DecidableEq

/-- `CameraDirection` from src/src/simulation_program.rs usage. -/
inductive CameraDirection where
  | Left
  | Right
  | Up
  | Down
  | Forward
  | Backward
deriving DecidableEq

/-- Modelled from the spec: the `Camera` state (camera.rs is not among the
provided sources; spec section 4.3).  Only the fields read or written by
src/src/simulation_program.rs appear. -/
structure Camera where
  position : Vec3
  direction : Vec3
  axis_up : Vec3
  zoom : ℚ
  movement_speed : ℚ
  turning_speed : ℚ
deriving DecidableEq

/-- Modelled from the spec: `Camera::advance` moves the position along the
chosen axis scaled by `dt * movement_speed` (camera.rs is missing; the exact
basis used for the translation is immaterial to every claim, so world axes
stand in for the camera axes). -/
def Camera.advance (c : Camera) (d : CameraDirection) (dt : ℚ) : Camera :=
  let k := dt * c.movement_speed
  let p := c.position
  { c with position :=
      match d with
      | .Left => ⟨p.x - k, p.y, p.z⟩
      | .Right => ⟨p.x + k, p.y, p.z⟩
      | .Up => ⟨p.x, p.y + k, p.z⟩
      | .Down => ⟨p.x, p.y - k, p.z⟩
      | .Forward => ⟨p.x, p.y, p.z - k⟩
      | .Backward => ⟨p.x, p.y, p.z + k⟩ }

/-- Modelled from the spec: `Camera::turn` reorients the direction scaled by
`dt * turning_speed` (linear stand-in for the rotation; camera.rs is missing
and no claim reads the resulting direction). -/
def Camera.turn (c : Camera) (d : CameraDirection) (dt : ℚ) : Camera :=
  let k := dt * c.turning_speed
  let v := c.direction
  { c with direction :=
      match d with
      | .Left => ⟨v.x - k, v.y, v.z⟩
      | .Right => ⟨v.x + k, v.y, v.z⟩
      | .Up => ⟨v.x, v.y + k, v.z⟩
      | .Down => ⟨v.x, v.y - k, v.z⟩
      | _ => v }

/-- Modelled from the spec: `Camera::rotate` rolls about the view axis scaled
by `dt * turning_speed` (linear stand-in; camera.rs is missing and no claim
reads the resulting up-axis). -/
def Camera.rotate (c : Camera) (d : CameraDirection) (dt : ℚ) : Camera :=
  let k := dt * c.turning_speed
  let v := c.axis_up
  { c with axis_up :=
      match d with
      | .Left => ⟨v.x - k, v.y, v.z⟩
      | .Right => ⟨v.x + k, v.y, v.z⟩
      | _ => v }

/-- Modelled from the spec: `Camera::drag` reorients the direction
proportionally to the mouse delta (camera.rs is missing; the proportionality
constant is immaterial to every claim). -/
def Camera.drag (c : Camera) (mx my : Int) : Camera :=
  let v := c.direction
  { c with direction := ⟨v.x + (mx : ℚ) / 1000, v.y + (my : ℚ) / 1000, v.z⟩ }

/-- Modelled from the spec: `Camera::change_zoom` adjusts the zoom and clamps
it to a fixed visual range, emitting a boundary notification on clamp
(camera.rs is missing; the spec does not name the range, modelled as
`[15, 90]`). -/
def Camera.change_zoom (c : Camera) (delta : ℚ) : Camera × List Ev :=
  let z := c.zoom + delta / 100
  if z < 15 then ({ c with zoom := 15 }, [⟨"app-event.top_message", .str "Minimum value is 15.0"⟩])
  else if z > 90 then ({ c with zoom := 90 }, [⟨"app-event.top_message", .str "Maximum value is 90.0"⟩])
  else ({ c with zoom := z }, [])

/-- `InitialParameters` from src/src/simulation_program.rs. -/
structure InitialParameters where
  initial_position_z : ℚ
  initial_pixel_width : ℚ
  initial_movement_speed : ℚ
deriving DecidableEq

/-- `SimulationTimers` from src/src/simulation_program.rs. -/
structure SimulationTimers where
  frame_count : Nat
  last_time : ℚ
  last_second : ℚ
deriving DecidableEq

/-- The `Resources` state of src/src/simulation_program.rs restricted to the
fields the update engine reads or writes.  `shadows_len` stands for
`pixels_render.shadows_len()` (the render object lives outside the provided
sources; the spec says the shadow index wraps modulo the number of available
shadow variants). -/
structure Resources where
  internal_resolution_multiplier : Int
  initial_parameters : InitialParameters
  timers : SimulationTimers
  animation : AnimationData
  camera : Camera
  crt_filters : CrtFilters
  launch_screenshot : Bool
  shadows_len : Nat
deriving DecidableEq

/-- Result of one embedded update step: the state as mutated so far, the
events dispatched so far, and the error if the step aborted early (Rust's
`&mut self` + `WasmResult` combination). -/
structure Upd (α : Type) where
  state : α
  events : List Ev
  error : Option String
deriving DecidableEq

/-- `change_frontend_input_values` from src/src/simulation_program.rs lines
111-127: the events it dispatches, in order (dispatch cannot fail in the
model, so the `WasmResult` wrapper is dropped). -/
def change_frontend_input_values (res : Resources) : List Ev :=
  [ ⟨"app-event.change_pixel_horizontal_gap", .num res.crt_filters.cur_pixel_scale_x⟩,
    ⟨"app-event.change_pixel_vertical_gap", .num res.crt_filters.cur_pixel_scale_y⟩,
    ⟨"app-event.change_pixel_width", .num res.crt_filters.cur_pixel_width⟩,
    ⟨"app-event.change_pixel_spread", .num res.crt_filters.cur_pixel_gap⟩,
    ⟨"app-event.change_pixel_brightness", .num res.crt_filters.extra_bright⟩,
    ⟨"app-event.change_pixel_contrast", .num res.crt_filters.extra_contrast⟩,
    ⟨"app-event.change_light_color", .int res.crt_filters.light_color⟩,
    ⟨"app-event.change_brightness_color", .int res.crt_filters.brightness_color⟩,
    ⟨"app-event.change_camera_zoom", .num res.camera.zoom⟩,
    ⟨"app-event.change_blur_level", .int (res.crt_filters.blur_passes : Int)⟩,
    ⟨"app-event.change_lines_per_pixel", .int (res.crt_filters.lines_per_pixel : Int)⟩,
    ⟨"app-event.change_movement_speed", .int (f64_as_i32 (res.camera.movement_speed / res.initial_parameters.initial_movement_speed))⟩,
    ⟨"app-event.change_pixel_speed", .int (f64_as_i32 (res.crt_filters.change_speed / pixel_manipulation_base_speed))⟩,
    ⟨"app-event.change_turning_speed", .int (f64_as_i32 (res.camera.turning_speed / turning_base_speed))⟩ ]

/-- Output of `update_timers_and_dt`: the new resources, the frame's `dt`
and the events dispatched. -/
structure TimersOut where
  res : Resources
  dt : ℚ
  events : List Ev
deriving DecidableEq

/-- `update_timers_and_dt` from src/src/simulation_program.rs lines 210-224:
compute `dt`, roll the one-second fps counter. -/
def update_timers_and_dt (res : Resources) (input : Input) : TimersOut :=
  let dt : ℚ := (input.now - res.timers.last_time) / 1000
  let ellapsed : ℚ := input.now - res.timers.last_second
  let t1 := { res.timers with last_time := input.now }
  if ellapsed ≥ 1000 then
    { res := { res with timers := { t1 with last_second := input.now, frame_count := 0 } }
      dt := dt
      events := [⟨"app-event.fps", .num (res.timers.frame_count : ℚ)⟩] }
  else
    { res := { res with timers := { t1 with frame_count := t1.frame_count + 1 } }
      dt := dt
      events := [] }

/-- `update_animation_buffer` from src/src/simulation_program.rs lines
226-240: advance the animation frame when its delay has elapsed. -/
def update_animation_buffer (res : Resources) (input : Input) : Resources :=
  let a0 := { res.animation with needs_buffer_data_load := false }
  let next_frame_update := a0.last_frame_change + a0.frame_length
  if input.now ≥ next_frame_update then
    let last_frame := a0.current_frame
    let cf1 := a0.current_frame + 1
    let cf2 := if cf1 ≥ a0.steps_len then 0 else cf1
    let a1 := { a0 with last_frame_change := next_frame_update, current_frame := cf2 }
    let a2 := if last_frame ≠ cf2 then { a1 with needs_buffer_data_load := true } else a1
    { res with animation := a2 }
  else
    { res with animation := a0 }

/-- The raw (pre-clamp) brightness computed by the key-progression section of
`update_colors` (src/src/simulation_program.rs lines 243-248). -/
def bright_raw (dt : ℚ) (f : CrtFilters) (input : Input) : ℚ :=
  let eb1 := if input.increase_bright then f.extra_bright + 1/100 * dt * f.change_speed else f.extra_bright
  if input.decrease_bright then eb1 - 1/100 * dt * f.change_speed else eb1

/-- The brightness section of `update_colors`
(src/src/simulation_program.rs lines 243-259): clamp the raw value to
`[-1, 1]` with a boundary message, or dispatch the change event. -/
def update_colors_bright (dt : ℚ) (f : CrtFilters) (input : Input) : ℚ × List Ev :=
  let eb2 := bright_raw dt f input
  if input.increase_bright || input.decrease_bright then
    if eb2 < -1 then (-1, [⟨"app-event.top_message", .str "Minimum value is -1.0"⟩])
    else if eb2 > 1 then (1, [⟨"app-event.top_message", .str "Maximum value is +1.0"⟩])
    else (eb2, [⟨"app-event.change_pixel_brightness", .num eb2⟩])
  else (eb2, [])

/-- The raw (pre-clamp) contrast computed by the key-progression section of
`update_colors` (src/src/simulation_program.rs lines 260-265). -/
def contrast_raw (dt : ℚ) (f : CrtFilters) (input : Input) : ℚ :=
  let ec1 := if input.increase_contrast then f.extra_contrast + 1/100 * dt * f.change_speed else f.extra_contrast
  if input.decrease_contrast then ec1 - 1/100 * dt * f.change_speed else ec1

/-- The contrast section of `update_colors`
(src/src/simulation_program.rs lines 260-276): clamp the raw value to
`[0, 20]` with a boundary message, or dispatch the change event. -/
def update_colors_contrast (dt : ℚ) (f : CrtFilters) (input : Input) : ℚ × List Ev :=
  let ec2 := contrast_raw dt f input
  if input.increase_contrast || input.decrease_contrast then
    if ec2 < 0 then (0, [⟨"app-event.top_message", .str "Minimum value is 0.0"⟩])
    else if ec2 > 20 then (20, [⟨"app-event.top_message", .str "Maximum value is 20.0"⟩])
    else (ec2, [⟨"app-event.change_pixel_contrast", .num ec2⟩])
  else (ec2, [])

/-- `update_colors` from src/src/simulation_program.rs lines 242-298:
key-driven brightness/contrast progression with clamping and notifications,
then the custom-event overrides (which return before the clamping section
and can fail on a non-numeric payload). -/
def update_colors (dt : ℚ) (f : CrtFilters) (input : Input) : Upd CrtFilters :=
  let brightStep := update_colors_bright dt f input
  let contrastStep := update_colors_contrast dt f input
  let f1 := { f with extra_bright := brightStep.1, extra_contrast := contrastStep.1 }
  let evs := brightStep.2 ++ contrastStep.2
  if input.custom_event.kind = "event_kind:pixel_brightness" then
    match input.custom_event.value.as_f64 with
    | some v => { state := { f1 with extra_bright := v }, events := evs, error := none }
    | none => { state := f1, events := evs, error := some "it should be a number" }
  else if input.custom_event.kind = "event_kind:pixel_contrast" then
    match input.custom_event.value.as_f64 with
    | some v => { state := { f1 with extra_contrast := v }, events := evs, error := none }
    | none => { state := f1, events := evs, error := some "it should be a number" }
  else if input.custom_event.kind = "event_kind:light_color" then
    match input.custom_event.value.as_f64 with
    | some v =>
      let color_pick := f64_as_i32 v
      if color_pick ≠ f1.light_color then
        { state := { f1 with light_color := color_pick }
          events := evs ++ [⟨"app-event.top_message", .str "Color changed."⟩], error := none }
      else { state := f1, events := evs, error := none }
    | none => { state := f1, events := evs, error := some "it should be a number" }
  else if input.custom_event.kind = "event_kind:brightness_color" then
    match input.custom_event.value.as_f64 with
    | some v =>
      let color_pick := f64_as_i32 v
      if color_pick ≠ f1.brightness_color then
        { state := { f1 with brightness_color := color_pick }
          events := evs ++ [⟨"app-event.top_message", .str "Color changed."⟩], error := none }
      else { state := f1, events := evs, error := none }
    | none => { state := f1, events := evs, error := some "it should be a number" }
  else { state := f1, events := evs, error := none }

/-- `update_blur` from src/src/simulation_program.rs lines 300-326: blur pass
count driven by just-pressed edges and the custom-event override, clamped to
at most 100, with change/boundary notifications. -/
def update_blur (f : CrtFilters) (input : Input) : Upd CrtFilters :=
  let last_blur_passes := f.blur_passes
  let b1 := if input.increase_blur.is_just_pressed then f.blur_passes + 1 else f.blur_passes
  let decStep : Nat × List Ev :=
    if input.decrease_blur.is_just_pressed then
      if b1 > 0 then (b1 - 1, [])
      else (b1, [⟨"app-event.top_message", .str "Minimum value is 0"⟩])
    else (b1, [])
  let b2 := decStep.1
  let evs1 := decStep.2
  if input.custom_event.kind = "event_kind:blur_level" then
    match input.custom_event.value.as_f64 with
    | none => { state := { f with blur_passes := b2 }, events := evs1, error := some "it should be a number" }
    | some v =>
      let b3 := f64_as_usize v
      let evs2 := evs1 ++ [⟨"app-event.change_blur_level", .int (b3 : Int)⟩]
      let clampStep : Nat × List Ev :=
        if b3 > 100 then (100, [⟨"app-event.top_message", .str "Maximum value is 100"⟩]) else (b3, [])
      let b4 := clampStep.1
      let evs3 := evs2 ++ clampStep.2
      if last_blur_passes ≠ b4 then
        { state := { f with blur_passes := b4 }
          events := evs3 ++ [⟨"app-event.top_message", .str ("Blur level: " ++ toString b4)⟩,
                             ⟨"app-event.change_blur_level", .int (b4 : Int)⟩]
          error := none }
      else { state := { f with blur_passes := b4 }, events := evs3, error := none }
  else
    let clampStep : Nat × List Ev :=
      if b2 > 100 then (100, [⟨"app-event.top_message", .str "Maximum value is 100"⟩]) else (b2, [])
    let b4 := clampStep.1
    let evs3 := evs1 ++ clampStep.2
    if last_blur_passes ≠ b4 then
      { state := { f with blur_passes := b4 }
        events := evs3 ++ [⟨"app-event.top_message", .str ("Blur level: " ++ toString b4)⟩,
                           ⟨"app-event.change_blur_level", .int (b4 : Int)⟩]
        error := none }
    else { state := { f with blur_passes := b4 }, events := evs3, error := none }

/-- The raw (pre-clamp) lines-per-pixel value computed by `update_lpp`
(src/src/simulation_program.rs lines 331-340) on an error-free tick: edge
progression, then the custom-event override when present. -/
def lpp_raw (f : CrtFilters) (input : Input) : Nat :=
  let l1 := if input.increase_lpp.is_just_pressed then f.lines_per_pixel + 1 else f.lines_per_pixel
  let l2 := if input.decrease_lpp.is_just_pressed && l1 > 0 then l1 - 1 else l1
  if input.custom_event.kind = "event_kind:lines_per_pixel" then
    match input.custom_event.value.as_f64 with
    | none => l2
    | some v => f64_as_usize v
  else l2

/-- The clamp-and-notify tail of `update_lpp`
(src/src/simulation_program.rs lines 341-352): clamp `l3` to `[1, 20]` with a
boundary message, then dispatch the change messages when the committed value
differs from the tick-start value `last_lpp`. -/
def lpp_clamp_notify (last_lpp l3 : Nat) (evs1 : List Ev) (f : CrtFilters) : Upd CrtFilters :=
  let clampStep : Nat × List Ev :=
    if l3 < 1 then (1, [⟨"app-event.top_message", .str "Minimum value is 1"⟩])
    else if l3 > 20 then (20, [⟨"app-event.top_message", .str "Maximum value is 20"⟩])
    else (l3, [])
  let l4 := clampStep.1
  let evs2 := evs1 ++ clampStep.2
  if last_lpp ≠ l4 then
    { state := { f with lines_per_pixel := l4 }
      events := evs2 ++ [⟨"app-event.top_message", .str ("Lines per pixel: " ++ toString l4)⟩,
                         ⟨"app-event.change_lines_per_pixel", .int (l4 : Int)⟩]
      error := none }
  else { state := { f with lines_per_pixel := l4 }, events := evs2, error := none }

/-- `update_lpp` from src/src/simulation_program.rs lines 329-353: lines per
pixel driven by just-pressed edges and the custom-event override, clamped to
`[1, 20]` after every path, with change/boundary notifications. -/
def update_lpp (f : CrtFilters) (input : Input) : Upd CrtFilters :=
  let last_lpp := f.lines_per_pixel
  let l1 := if input.increase_lpp.is_just_pressed then f.lines_per_pixel + 1 else f.lines_per_pixel
  let l2 := if input.decrease_lpp.is_just_pressed && l1 > 0 then l1 - 1 else l1
  if input.custom_event.kind = "event_kind:lines_per_pixel" then
    match input.custom_event.value.as_f64 with
    | none => { state := { f with lines_per_pixel := l2 }, events := [], error := some "it should be a number" }
    | some v =>
      let l3 := f64_as_usize v
      lpp_clamp_notify last_lpp l3 [⟨"app-event.change_lines_per_pixel", .int (l3 : Int)⟩] f
  else lpp_clamp_notify last_lpp l2 [] f

/-- `update_pixel_pulse` from src/src/simulation_program.rs lines 356-369:
edge-triggered pulse toggle with notifications, then monotone accumulation
while active / reset to zero while inactive. -/
def update_pixel_pulse (dt : ℚ) (f : CrtFilters) (input : Input) : Upd CrtFilters :=
  let toggled : CrtFilters × List Ev :=
    if input.showing_pixels_pulse.is_just_pressed then
      let sp := !f.showing_pixels_pulse
      ({ f with showing_pixels_pulse := sp },
       [⟨"app-event.top_message", .str (if sp then "Screen wave ON." else "Screen wave OFF.")⟩,
        ⟨"app-event.showing_pixels_pulse", .bool sp⟩])
    else (f, [])
  let f1 := toggled.1
  let f2 :=
    if f1.showing_pixels_pulse then { f1 with pixels_pulse := f1.pixels_pulse + dt * 3/10 }
    else { f1 with pixels_pulse := 0 }
  { state := f2, events := toggled.2, error := none }

/-- The colour-representation cycling block of `update_crt_filters`
(src/src/simulation_program.rs lines 419-433): when the button was just
pressed, advance the mode one step along the four-mode cycle and dispatch
one descriptive top message. -/
def update_color_representation (cc : ColorChannels) (just_pressed : Bool) : ColorChannels × List Ev :=
  if just_pressed then
    let cc1 :=
      match cc with
      | .Combined => ColorChannels.Overlapping
      | .Overlapping => ColorChannels.SplitHorizontal
      | .SplitHorizontal => ColorChannels.SplitVertical
      | .SplitVertical => ColorChannels.Combined
    let message :=
      match cc1 with
      | .Combined => "combined"
      | .Overlapping => "horizontal overlapping"
      | .SplitHorizontal => "horizontal split"
      | .SplitVertical => "vertical split"
    (cc1, [⟨"app-event.top_message", .str ("Pixel color representation: " ++ message ++ ".")⟩])
  else (cc, [])

/-- The raw (pre-clamp) pixel-size value computed by `change_pixel_sizes`
(src/src/simulation_program.rs lines 463-472) on an error-free tick: key
progression, then the custom-event override when present. -/
def pixel_size_raw (input : Input) (increase decrease : Bool) (cur_size velocity : ℚ)
    (event_kind : String) : ℚ :=
  let c1 := if increase then cur_size + velocity else cur_size
  let c2 := if decrease then c1 - velocity else c1
  if input.custom_event.kind = event_kind then
    match input.custom_event.value.as_f64 with
    | none => c2
    | some v => v
  else c2

/-- The commit tail of `change_pixel_sizes`
(src/src/simulation_program.rs lines 473-481): when the value changed, clamp
below at 0 with the minimum message and dispatch the change event. -/
def change_pixel_sizes_commit (before_size c3 : ℚ) (event_id : String) : Upd ℚ :=
  if c3 ≠ before_size then
    if c3 < 0 then
      { state := 0
        events := [⟨"app-event.top_message", .str "Minimum value is 0.0"⟩, ⟨event_id, .num 0⟩]
        error := none }
    else { state := c3, events := [⟨event_id, .num c3⟩], error := none }
  else { state := c3, events := [], error := none }

/-- The nested `change_pixel_sizes` function of `update_crt_filters`
(src/src/simulation_program.rs lines 462-482): key progression, custom-event
override (which can fail on a non-numeric payload), then the commit tail. -/
def change_pixel_sizes (input : Input) (increase decrease : Bool) (cur_size velocity : ℚ)
    (event_id event_kind : String) : Upd ℚ :=
  let before_size := cur_size
  let c1 := if increase then cur_size + velocity else cur_size
  let c2 := if decrease then c1 - velocity else c1
  if input.custom_event.kind = event_kind then
    match input.custom_event.value.as_f64 with
    | none => { state := c2, events := [], error := some "it should be a number" }
    | some v => change_pixel_sizes_commit before_size v event_id
  else change_pixel_sizes_commit before_size c2 event_id

/-- `update_crt_filters` from src/src/simulation_program.rs lines 371-484:
full reset, layering cycling, colour-representation cycling, geometry
toggling, shadow-kind cycling and the four pixel-size parameters. -/
def update_crt_filters (dt : ℚ) (res : Resources) (input : Input) : Upd Resources :=
  if input.reset_filters then
    let f0 := CrtFilters.new pixel_manipulation_base_speed
    let f1 := { f0 with cur_pixel_width := res.initial_parameters.initial_pixel_width }
    let res1 := { res with crt_filters := f1 }
    { state := res1
      events := change_frontend_input_values res1 ++
        [⟨"app-event.top_message", .str "All filter options have been reset."⟩]
      error := none }
  else
    let layeringStep : CrtFilters × List Ev :=
      if !input.input_focused && input.next_layering_kind.is_just_pressed then
        let f := res.crt_filters
        let lk := RenderLayers.ofIdx ((f.layering_kind.toIdx + 1) % 5)
        let f1 :=
          match lk with
          | .ShadowOnly =>
            { f with layering_kind := lk, showing_diffuse_foreground := true, showing_solid_background := false }
          | .SolidOnly =>
            { f with layering_kind := lk, showing_diffuse_foreground := false, showing_solid_background := true,
                     solid_color_weight := 1 }
          | .ShadowWithSolidBackground75 =>
            { f with layering_kind := lk, showing_diffuse_foreground := true, showing_solid_background := true,
                     solid_color_weight := 3/4 }
          | .ShadowWithSolidBackground50 =>
            { f with layering_kind := lk, showing_diffuse_foreground := true, showing_solid_background := true,
                     solid_color_weight := 1/2 }
          | .ShadowWithSolidBackground25 =>
            { f with layering_kind := lk, showing_diffuse_foreground := true, showing_solid_background := true,
                     solid_color_weight := 1/4 }
        let message :=
          match lk with
          | .ShadowOnly => "Shadow only"
          | .SolidOnly => "Solid only"
          | .ShadowWithSolidBackground75 => "Shadow with 75% Solid background"
          | .ShadowWithSolidBackground50 => "Shadow with 50% Solid background"
          | .ShadowWithSolidBackground25 => "Shadow with 25% Solid background"
        (f1, [⟨"app-event.top_message", .str ("Layering kind '" ++ message ++ "' selected.")⟩])
      else (res.crt_filters, [])
    let fA := layeringStep.1
    let colorStep := update_color_representation fA.color_channels input.next_color_representation_kind.is_just_pressed
    let fB := { fA with color_channels := colorStep.1 }
    let geometryStep : CrtFilters × List Ev :=
      if input.next_pixel_geometry_kind.is_just_released then
        let gk :=
          match fB.pixels_geometry_kind with
          | .Squares => PixelsGeometryKind.Cubes
          | .Cubes => PixelsGeometryKind.Squares
        let message :=
          match gk with
          | .Squares => "squares"
          | .Cubes => "cubes"
        ({ fB with pixels_geometry_kind := gk },
         [⟨"app-event.top_message", .str ("Showing pixels as " ++ message ++ ".")⟩,
          ⟨"app-event.showing_pixels_as", .str message⟩])
      else (fB, [])
    let fC := geometryStep.1
    let shadowStep : CrtFilters × List Ev :=
      if !input.input_focused && input.toggle_pixels_shadow_kind.is_just_released then
        let k1 := fC.pixel_shadow_kind + 1
        let k2 := if k1 ≥ res.shadows_len then 0 else k1
        ({ fC with pixel_shadow_kind := k2 },
         [⟨"app-event.top_message", .str ("Showing next pixel shadow: " ++ toString k2 ++ ".")⟩])
      else (fC, [])
    let fD := shadowStep.1
    let evs0 := layeringStep.2 ++ colorStep.2 ++ geometryStep.2 ++ shadowStep.2
    let pixel_velocity := dt * fD.change_speed
    let u1 := change_pixel_sizes input input.increase_pixel_scale_x input.decrease_pixel_scale_x
      fD.cur_pixel_scale_x (pixel_velocity * 125/100000) "app-event.change_pixel_vertical_gap" "event_kind:pixel_vertical_gap"
    let fE := { fD with cur_pixel_scale_x := u1.state }
    if u1.error.isSome then { state := { res with crt_filters := fE }, events := evs0 ++ u1.events, error := u1.error }
    else
      let u2 := change_pixel_sizes input input.increase_pixel_scale_y input.decrease_pixel_scale_y
        fE.cur_pixel_scale_y (pixel_velocity * 125/100000) "app-event.change_pixel_horizontal_gap" "event_kind:pixel_horizontal_gap"
      let fF := { fE with cur_pixel_scale_y := u2.state }
      if u2.error.isSome then
        { state := { res with crt_filters := fF }, events := evs0 ++ u1.events ++ u2.events, error := u2.error }
      else
        let u3 := change_pixel_sizes input (input.increase_pixel_gap && !input.shift) (input.decrease_pixel_gap && !input.shift)
          fF.cur_pixel_width (pixel_velocity * 5/1000) "app-event.change_pixel_width" "event_kind:pixel_width"
        let fG := { fF with cur_pixel_width := u3.state }
        if u3.error.isSome then
          { state := { res with crt_filters := fG }, events := evs0 ++ u1.events ++ u2.events ++ u3.events, error := u3.error }
        else
          let u4 := change_pixel_sizes input (input.increase_pixel_gap && input.shift) (input.decrease_pixel_gap && input.shift)
            fG.cur_pixel_gap (pixel_velocity * 5/1000) "app-event.change_pixel_spread" "event_kind:pixel_spread"
          let fH := { fG with cur_pixel_gap := u4.state }
          { state := { res with crt_filters := fH }
            events := evs0 ++ u1.events ++ u2.events ++ u3.events ++ u4.events
            error := u4.error }

/-- The nested `change_speed` function of `update_speeds`
(src/src/simulation_program.rs lines 496-507): double on a speed-up edge
while below 10000, halve on a speed-down edge while above 0.01, and notify
with the rounded multiplier when the value changed. -/
def change_speed_fn (input : Input) (cur_speed base_speed : ℚ) (top_msg event_id : String) : ℚ × List Ev :=
  let before_speed := cur_speed
  let c1 := if input.speed_up.is_just_pressed && cur_speed < 10000 then cur_speed * 2 else cur_speed
  let c2 := if input.speed_down.is_just_pressed && c1 > 1/100 then c1 / 2 else c1
  (c2,
    if c2 ≠ before_speed then
      let speed : ℚ := ((round (c2 / base_speed * 1000) : Int) : ℚ) / 1000
      [⟨"app-event.top_message", .str (top_msg ++ toString speed ++ "x")⟩, ⟨event_id, .num speed⟩]
    else [])

/-- `update_speeds` from src/src/simulation_program.rs lines 486-517: with
`alt` held nothing changes (the turning-speed call is commented out in the
source); with `shift` the filter-change speed; otherwise the turning and
movement speeds; then `reset_speeds` restores all three. -/
def update_speeds (res : Resources) (input : Input) : Upd Resources :=
  let branch : Resources × List Ev :=
    if input.alt then (res, [])
    else if input.shift then
      let s := change_speed_fn input res.crt_filters.change_speed pixel_manipulation_base_speed
        "Pixel manipulation speed: " "app-event.change_pixel_speed"
      ({ res with crt_filters := { res.crt_filters with change_speed := s.1 } }, s.2)
    else
      let t := change_speed_fn input res.camera.turning_speed turning_base_speed
        "Turning camera speed: " "app-event.change_turning_speed"
      let m := change_speed_fn input res.camera.movement_speed res.initial_parameters.initial_movement_speed
        "Translation camera speed: " "app-event.change_movement_speed"
      ({ res with camera := { res.camera with turning_speed := t.1, movement_speed := m.1 } }, t.2 ++ m.2)
  let res1 := branch.1
  if input.reset_speeds then
    let cam2 := { res1.camera with turning_speed := turning_base_speed, movement_speed := res1.initial_parameters.initial_movement_speed }
    let res2 := { res1 with
      camera := cam2,
      crt_filters := { res1.crt_filters with change_speed := pixel_manipulation_base_speed } }
    { state := res2
      events := branch.2 ++ [⟨"app-event.top_message", .str "All speeds have been reset."⟩] ++
        change_frontend_input_values res2
      error := none }
  else { state := res1, events := branch.2, error := none }

/-- The custom-event arms of `update_camera`
(src/src/simulation_program.rs lines 554-609): each camera override parses a
number (failing the tick with "Wrong number" otherwise) and sets one camera
component. -/
def update_camera_custom (cam : Camera) (input : Input) : Upd Camera :=
  let parse : (ℚ → Camera) → Upd Camera := fun setV =>
    match input.custom_event.value.as_f64 with
    | some v => { state := setV v, events := [], error := none }
    | none => { state := cam, events := [], error := some "Wrong number" }
  if input.custom_event.kind = "event_kind:camera_zoom" then
    parse (fun v => { cam with zoom := v })
  else if input.custom_event.kind = "event_kind:camera_pos_x" then
    parse (fun v => { cam with position := { cam.position with x := v } })
  else if input.custom_event.kind = "event_kind:camera_pos_y" then
    parse (fun v => { cam with position := { cam.position with y := v } })
  else if input.custom_event.kind = "event_kind:camera_pos_z" then
    parse (fun v => { cam with position := { cam.position with z := v } })
  else if input.custom_event.kind = "event_kind:camera_axis_up_x" then
    parse (fun v => { cam with axis_up := { cam.axis_up with x := v } })
  else if input.custom_event.kind = "event_kind:camera_axis_up_y" then
    parse (fun v => { cam with axis_up := { cam.axis_up with y := v } })
  else if input.custom_event.kind = "event_kind:camera_axis_up_z" then
    parse (fun v => { cam with axis_up := { cam.axis_up with z := v } })
  else if input.custom_event.kind = "event_kind:camera_direction_x" then
    parse (fun v => { cam with direction := { cam.direction with x := v } })
  else if input.custom_event.kind = "event_kind:camera_direction_y" then
    parse (fun v => { cam with direction := { cam.direction with y := v } })
  else if input.custom_event.kind = "event_kind:camera_direction_z" then
    parse (fun v => { cam with direction := { cam.direction with z := v } })
  else { state := cam, events := [], error := none }

/-- `update_camera` from src/src/simulation_program.rs lines 519-621:
directional movement, turning, rolling, mouse drag with pointer-lock
notifications, zoom, camera custom-event overrides (failing on non-numeric
payloads) and the camera reset.  The 3D operations follow the spec-modelled
`Camera` methods. -/
def update_camera (dt : ℚ) (res : Resources) (input : Input) : Upd Resources :=
  let c0 := res.camera
  let c1 := if input.walk_left then c0.advance .Left dt else c0
  let c2 := if input.walk_right then c1.advance .Right dt else c1
  let c3 := if input.walk_up then c2.advance .Up dt else c2
  let c4 := if input.walk_down then c3.advance .Down dt else c3
  let c5 := if input.walk_forward then c4.advance .Forward dt else c4
  let c6 := if input.walk_backward then c5.advance .Backward dt else c5
  let c7 := if input.turn_left then c6.turn .Left dt else c6
  let c8 := if input.turn_right then c7.turn .Right dt else c7
  let c9 := if input.turn_up then c8.turn .Up dt else c8
  let c10 := if input.turn_down then c9.turn .Down dt else c9
  let c11 :=
    if input.input_focused = false then
      let ca := if input.rotate_left then c10.rotate .Left dt else c10
      if input.rotate_right then ca.rotate .Right dt else ca
    else c10
  let clickStep : Camera × List Ev :=
    if input.mouse_click.is_just_pressed then (c11, [⟨"app-event.request_pointer_lock", .unit⟩])
    else if input.mouse_click.is_activated then (c11.drag input.mouse_position_x input.mouse_position_y, [])
    else if input.mouse_click.is_just_released then (c11, [⟨"app-event.exit_pointer_lock", .unit⟩])
    else (c11, [])
  let c12 := clickStep.1
  let zoomStep : Camera × List Ev :=
    if input.increase_camera_zoom then c12.change_zoom (dt * -100)
    else if input.decrease_camera_zoom then c12.change_zoom (dt * 100)
    else if input.mouse_scroll_y ≠ 0 then c12.change_zoom input.mouse_scroll_y
    else (c12, [])
  let c13 := zoomStep.1
  let evs0 := clickStep.2 ++ zoomStep.2
  let uc := update_camera_custom c13 input
  if uc.error.isSome then
    { state := { res with camera := uc.state }, events := evs0 ++ uc.events, error := uc.error }
  else
    let c14 := uc.state
    let resetStep : Camera × List Ev :=
      if input.reset_position then
        let cr := { c14 with position := ⟨0, 0, res.initial_parameters.initial_position_z⟩,
                             direction := ⟨0, 0, -1⟩, axis_up := ⟨0, 1, 0⟩, zoom := 45 }
        (cr, [⟨"app-event.change_camera_zoom", .num (45 : ℚ)⟩,
              ⟨"app-event.top_message", .str "The camera have been reset."⟩])
      else (c14, [])
    { state := { res with camera := resetStep.1 }, events := evs0 ++ uc.events ++ resetStep.2, error := none }

/-- Output of the filter prefix of `update_simulation` (timers, animation,
colours, blur, lines per pixel — everything before the escape check). -/
structure Stage1Out where
  res : Resources
  dt : ℚ
  events : List Ev
  error : Option String
deriving DecidableEq

/-- The prefix of `update_simulation` (src/src/simulation_program.rs lines
184-189): timers, animation, `update_colors`, `update_blur` and `update_lpp`
threaded in order, aborting at (but keeping the mutations of) the first
failing step. -/
def update_sim_stage1 (res : Resources) (input : Input) : Stage1Out :=
  let t := update_timers_and_dt res input
  let res1 := update_animation_buffer t.res input
  let uc := update_colors t.dt res1.crt_filters input
  let res2 := { res1 with crt_filters := uc.state }
  if uc.error.isSome then { res := res2, dt := t.dt, events := t.events ++ uc.events, error := uc.error }
  else
    let ub := update_blur res2.crt_filters input
    let res3 := { res2 with crt_filters := ub.state }
    if ub.error.isSome then
      { res := res3, dt := t.dt, events := t.events ++ uc.events ++ ub.events, error := ub.error }
    else
      let ul := update_lpp res3.crt_filters input
      let res4 := { res3 with crt_filters := ul.state }
      { res := res4, dt := t.dt, events := t.events ++ uc.events ++ ub.events ++ ul.events, error := ul.error }

/-- Output of `update_simulation`: the state as mutated so far, the events,
the error channel, and the Rust `Ok(bool)` result (`keep_running = false`
means the terminate signal; it is only meaningful when `error = none`). -/
structure SimOut where
  res : Resources
  events : List Ev
  error : Option String
  keep_running : Bool
deriving DecidableEq

/-- `update_simulation` from src/src/simulation_program.rs lines 183-208: the
filter prefix, then the escape check (terminate signal), the info-panel
toggle, pulse, CRT filters, speeds, camera, and the screenshot flag, with
errors aborting the tick while keeping prior mutations. -/
def update_simulation (res : Resources) (input : Input) : SimOut :=
  let s1 := update_sim_stage1 res input
  if s1.error.isSome then { res := s1.res, events := s1.events, error := s1.error, keep_running := true }
  else if input.esc.is_just_pressed then
    { res := s1.res, events := s1.events ++ [⟨"app-event.exiting_session", .unit⟩]
      error := none, keep_running := false }
  else
    let spaceEvs : List Ev :=
      if input.space.is_just_pressed then [⟨"app-event.toggle_info_panel", .unit⟩] else []
    let up := update_pixel_pulse s1.dt s1.res.crt_filters input
    let res5 := { s1.res with crt_filters := up.state }
    let uf := update_crt_filters s1.dt res5 input
    if uf.error.isSome then
      { res := uf.state, events := s1.events ++ spaceEvs ++ up.events ++ uf.events
        error := uf.error, keep_running := true }
    else
      let us := update_speeds uf.state input
      let ucam := update_camera s1.dt us.state input
      if ucam.error.isSome then
        { res := ucam.state, events := s1.events ++ spaceEvs ++ up.events ++ uf.events ++ us.events ++ ucam.events
          error := ucam.error, keep_running := true }
      else
        { res := { ucam.state with launch_screenshot := input.screenshot.is_just_released }
          events := s1.events ++ spaceEvs ++ up.events ++ uf.events ++ us.events ++ ucam.events
          error := none, keep_running := true }

/-- `pre_process_input` from src/src/simulation_program.rs lines 155-173:
store the tick's timestamp and track every edge-tracked button. -/
def pre_process_input (now : ℚ) (input : Input) : Input :=
  { input with
    now := now,
    toggle_pixels_shadow_kind := input.toggle_pixels_shadow_kind.track_input,
    speed_up := input.speed_up.track_input,
    speed_down := input.speed_down.track_input,
    mouse_click := input.mouse_click.track_input,
    increase_blur := input.increase_blur.track_input,
    decrease_blur := input.decrease_blur.track_input,
    increase_lpp := input.increase_lpp.track_input,
    decrease_lpp := input.decrease_lpp.track_input,
    next_color_representation_kind := input.next_color_representation_kind.track_input,
    next_pixel_geometry_kind := input.next_pixel_geometry_kind.track_input,
    next_layering_kind := input.next_layering_kind.track_input,
    showing_pixels_pulse := input.showing_pixels_pulse.track_input,
    esc := input.esc.track_input,
    space := input.space.track_input,
    screenshot := input.screenshot.track_input }

/-- `post_process_input` from src/src/simulation_program.rs lines 175-181
(identical to src/src/screen-sim/simulation_main_functions.rs lines 127-132):
clear the transient fields — scroll delta, mouse position, custom-event
kind. -/
def post_process_input (input : Input) : Input :=
  { input with
    mouse_scroll_y := 0,
    mouse_position_x := 0,
    mouse_position_y := 0,
    custom_event := { input.custom_event with kind := "" } }

/-- Output of one `program_iteration`: the committed resources and input,
the events, the error channel, whether another frame was scheduled, and
whether `draw` was invoked this tick. -/
structure IterOut where
  res : Resources
  input : Input
  events : List Ev
  error : Option String
  keep : Bool
  drew : Bool
deriving DecidableEq

/-- `program_iteration` from src/src/simulation_program.rs lines 54-70:
pre-process the input, update; on the terminate signal stop (without
drawing); otherwise post-process the input, draw, and schedule the next
frame.  An update error propagates before `post_process_input` and `draw`
and prevents the next frame from being scheduled. -/
def program_iteration (now : ℚ) (res : Resources) (input0 : Input) : IterOut :=
  let input1 := pre_process_input now input0
  let s := update_simulation res input1
  if s.error.isSome then
    { res := s.res, input := input1, events := s.events, error := s.error, keep := false, drew := false }
  else if !s.keep_running then
    { res := s.res, input := input1, events := s.events, error := none, keep := false, drew := false }
  else
    { res := s.res, input := post_process_input input1, events := s.events
      error := none, keep := true, drew := true }

/-- The frame loop of src/src/simulation_program.rs: each entry of the list
is one scheduled animation frame (the timestamp plus whatever the event
listeners did to the input since the previous frame); the loop stops as soon
as an iteration does not schedule the next frame. -/
def run_loop : Resources → Input → List (ℚ × (Input → Input)) → List IterOut
  | _, _, [] => []
  | res, input, (now, listen) :: rest =>
    let out := program_iteration now res (listen input)
    out :: (if out.keep then run_loop out.res out.input rest else [])

/-- One buffer-stack operation issued by a draw sequence. -/
inductive StackOp where
  | push
  | pop
deriving DecidableEq

/-- Run a sequence of stack operations against the spec's `BufferStack`
discipline, tracking only the stack depth: `pop` on an empty stack is the
documented fatal protocol violation (`none`). -/
def run_stack_ops : Nat → List StackOp → Option Nat
  | depth, [] => some depth
  | depth, .push :: rest => run_stack_ops (depth + 1) rest
  | depth, .pop :: rest =>
    match depth with
    | 0 => none
    | d + 1 => run_stack_ops d rest

/-- Modelled from the spec: the blur render pass (blur_render.rs is not among
the provided sources).  The spec's step 7 of the compositing algorithm says
the blur runs in place on the composite, so its net stack effect is zero. -/
def blur_stack_ops (_passes : Nat) : List StackOp :=
  []

/-- The buffer-stack operations issued by `draw`
(src/src/simulation_program.rs lines 623-812), in program order: two initial
pushes; in the foreground pass one nested push per colour split (overlapping
mode only) and the three matching pops per line group; the background-layer
push; its two pops; the (spec-modelled, balanced) blur pass; the final pop
before `assert_no_stack`. -/
def draw_stack_ops (f : CrtFilters) : List StackOp :=
  [.push, .push] ++
  (if f.showing_diffuse_foreground then
    (List.range f.lines_per_pixel).flatMap (fun _ =>
      let color_splits := match f.color_channels with | .Combined => 1 | _ => 3
      ((List.range color_splits).flatMap (fun _ =>
        if f.color_channels = ColorChannels.Overlapping then [StackOp.push] else [])) ++
      (if f.color_channels = ColorChannels.Overlapping then [StackOp.pop, .pop, .pop] else []))
  else []) ++
  [.push] ++
  [.pop, .pop] ++
  (if f.blur_passes > 0 then blur_stack_ops f.blur_passes else []) ++
  [.pop]

/-- The fields of the newer `Resources`/`Filters`/`output` state read by
`SimulationDrawer::draw`
(src/rust/display-sim-webgl-render/src/simulation_draw.rs) that decide its
buffer-stack traffic.  `color_splits` is spec-modelled as 1 in combined mode
and 3 otherwise (the update-stage code that fills `output` is not among the
provided sources). -/
structure DrawerFilters where
  horizontal_lpp : Nat
  vertical_lpp : Nat
  color_channels : ColorChannels
  showing_background : Bool
  blur_passes : Nat
deriving DecidableEq

/-- Modelled from the spec: `output.color_splits` — 1 if the colour mode is
combined, else 3 (spec section 4.6 step 3). -/
def DrawerFilters.color_splits (f : DrawerFilters) : Nat :=
  match f.color_channels with
  | .Combined => 1
  | _ => 3

/-- The main-buffer-stack operations issued by `SimulationDrawer::draw`
(src/rust/display-sim-webgl-render/src/simulation_draw.rs lines 36-224), in
program order: two initial pushes; per (horizontal, vertical) line-group one
nested push per colour split and three pops in overlapping mode; the
background-layer push (the low-resolution background itself uses the
separate `bg_buffer_stack`); two pops; the (spec-modelled, balanced) blur
pass; the final pop before `assert_no_stack`. -/
def drawer_main_stack_ops (f : DrawerFilters) : List StackOp :=
  [.push, .push] ++
  ((List.range f.horizontal_lpp).flatMap (fun _ =>
    (List.range f.vertical_lpp).flatMap (fun _ =>
      ((List.range f.color_splits).flatMap (fun _ =>
        if f.color_channels = ColorChannels.Overlapping then [StackOp.push] else [])) ++
      (if f.color_channels = ColorChannels.Overlapping then [StackOp.pop, .pop, .pop] else [])))) ++
  [.push] ++
  [.pop, .pop] ++
  (if f.blur_passes > 0 then blur_stack_ops f.blur_passes else []) ++
  [.pop]

/-- The background-buffer-stack operations issued by
`SimulationDrawer::draw`: one push and one pop around the background pass
when the background is shown (its blur, spec-modelled, is balanced). -/
def drawer_bg_stack_ops (f : DrawerFilters) : List StackOp :=
  if f.showing_background then [.push] ++ blur_stack_ops 6 ++ [.pop] else []

/-- An idle edge-tracked button: not pressed now or before. -/
def idleButton : BooleanButton :=
  { raw := false, current := false, previous := false }

/-- A button on its just-pressed edge (current sample true, previous false). -/
def pressedButton : BooleanButton :=
  { raw := true, current := true, previous := false }

/-- A concrete all-idle input fixture. -/
def baseInput : Input :=
  { now := 0
    mouse_scroll_y := 0
    mouse_position_x := 0
    mouse_position_y := 0
    custom_event := { kind := "", value := .num 0 }
    increase_bright := false
    decrease_bright := false
    increase_contrast := false
    decrease_contrast := false
    shift := false
    alt := false
    input_focused := false
    reset_filters := false
    reset_speeds := false
    reset_position := false
    walk_left := false
    walk_right := false
    walk_up := false
    walk_down := false
    walk_forward := false
    walk_backward := false
    turn_left := false
    turn_right := false
    turn_up := false
    turn_down := false
    rotate_left := false
    rotate_right := false
    increase_pixel_scale_x := false
    decrease_pixel_scale_x := false
    increase_pixel_scale_y := false
    decrease_pixel_scale_y := false
    increase_pixel_gap := false
    decrease_pixel_gap := false
    increase_camera_zoom := false
    decrease_camera_zoom := false
    toggle_pixels_shadow_kind := idleButton
    speed_up := idleButton
    speed_down := idleButton
    mouse_click := idleButton
    increase_blur := idleButton
    decrease_blur := idleButton
    increase_lpp := idleButton
    decrease_lpp := idleButton
    next_color_representation_kind := idleButton
    next_pixel_geometry_kind := idleButton
    next_layering_kind := idleButton
    showing_pixels_pulse := idleButton
    esc := idleButton
    space := idleButton
    screenshot := idleButton }

/-- A concrete camera fixture (the initial pose computed by
`load_resources` for the testing video input, with the position's exact
value replaced by a plain number — the claims never read it). -/
def baseCamera : Camera :=
  { position := ⟨0, 0, 270⟩
    direction := ⟨0, 0, -1⟩
    axis_up := ⟨0, 1, 0⟩
    zoom := 45
    movement_speed := 54
    turning_speed := 3 }

/-- A concrete animation fixture (the geometry of
src/rust/screen-sim-testing/src/fake.rs: one 256x240 frame). -/
def baseAnimation : AnimationData :=
  { steps_len := 1
    image_width := 256
    image_height := 240
    background_width := 256
    background_height := 240
    viewport_width := 256
    viewport_height := 240
    pixel_width := 1
    stretch := false
    frame_length := 60
    current_frame := 0
    last_frame_change := 0
    needs_buffer_data_load := false }

/-- A concrete resources fixture in its freshly-initialized state. -/
def baseResources : Resources :=
  { internal_resolution_multiplier := 2
    initial_parameters := { initial_position_z := 270, initial_pixel_width := 1, initial_movement_speed := 54 }
    timers := { frame_count := 0, last_time := 0, last_second := 0 }
    animation := baseAnimation
    camera := baseCamera
    crt_filters := CrtFilters.new pixel_manipulation_base_speed
    launch_screenshot := false
    shadows_len := 6 }

/-- Input fixture: a custom event overriding the pixel brightness with 5.0. -/
def brightOverrideInput : Input :=
  { baseInput with custom_event := { kind := "event_kind:pixel_brightness", value := .num 5 } }

/-- Input fixture: the increase-blur button on its just-pressed edge. -/
def blurIncInput : Input :=
  { baseInput with increase_blur := pressedButton }

/-- Input fixture: the decrease-blur button on its just-pressed edge. -/
def blurDecInput : Input :=
  { baseInput with decrease_blur := pressedButton }

/-- Input fixture: increase-blur just-pressed together with a malformed
(string-valued) blur-level custom event. -/
def blurBadInput : Input :=
  { baseInput with increase_blur := pressedButton
                   custom_event := { kind := "event_kind:blur_level", value := .str "nope" } }

/-- Input fixture: escape just-pressed together with a malformed
(string-valued) brightness custom event. -/
def escBadInput : Input :=
  { baseInput with esc := pressedButton
                   custom_event := { kind := "event_kind:pixel_brightness", value := .str "nope" } }

/-- Input fixture: escape on its just-pressed edge, no custom event. -/
def escInput : Input :=
  { baseInput with esc := pressedButton }

/-- Input fixture: the speed-up button on its just-pressed edge, no
modifiers. -/
def speedUpInput : Input :=
  { baseInput with speed_up := pressedButton }

/-- Resources fixture with turning speed 6144 (the value reached from the
base turning speed 3 after eleven speed-up edges). -/
def fastTurnResources : Resources :=
  { baseResources with camera := { baseCamera with turning_speed := 6144 } }

/-! Theorems.  The claim theorems are named `cN_...` after the claim ids. -/

theorem fap_double_loop_eq : ∀ (fuel : Nat) (b : ℚ) (r : Int),
    fap_double_loop_a fuel b r = fap_double_loop_b fuel b r
  | 0, _, _ => rfl
  | fuel + 1, b, r => by
    simp only [fap_double_loop_a, fap_double_loop_b]
    split
    · exact fap_double_loop_eq fuel (b * 2) (r * 2)
    · rfl

theorem fap_divisor_loop_eq (r d : Int) : fap_divisor_loop_a r d = fap_divisor_loop_b r d := by
  rw [fap_divisor_loop_a, fap_divisor_loop_b]
  split
  · split
    · rfl
    · exact fap_divisor_loop_eq r (d - 1)
  · rfl
termination_by d.toNat
decreasing_by omega

/-- C10: the two `calculate_far_away_position` implementations (the one in
src/src/simulation_program.rs over `AnimationData` and the one in
src/src/screen-sim/simulation_main_functions.rs over `VideoInputResources`)
compute identical results whenever their background size, viewport size,
pixel width and stretch flag agree, for every fuel bound on the shared
doubling loop. -/
theorem c10_far_away_position_equiv (fuel : Nat) (a : AnimationData) (v : VideoInputResources)
    (hbw : a.background_width = v.background_size.width)
    (hbh : a.background_height = v.background_size.height)
    (hvw : a.viewport_width = v.viewport_size.width)
    (hvh : a.viewport_height = v.viewport_size.height)
    (hpw : a.pixel_width = v.pixel_width)
    (hs : a.stretch = v.stretch) :
    calculate_far_away_position_a fuel a = calculate_far_away_position_b fuel v := by
  simp only [calculate_far_away_position_a, calculate_far_away_position_b,
    hbw, hbh, hvw, hvh, hpw, hs, fap_double_loop_eq, fap_divisor_loop_eq]

/-- A concrete `VideoInputResources` matching `baseAnimation`. -/
theorem c10_witness :
    calculate_far_away_position_a 64 baseAnimation =
      calculate_far_away_position_b 64
        { background_size := ⟨256, 240⟩, viewport_size := ⟨256, 240⟩, pixel_width := 1, stretch := false } :=
  c10_far_away_position_equiv 64 baseAnimation
    { background_size := ⟨256, 240⟩, viewport_size := ⟨256, 240⟩, pixel_width := 1, stretch := false }
    rfl rfl rfl rfl rfl rfl

/-- C9: the colour decode function returns the six documented channel
triples; on `0x00EBF114` the exact channel values are within `1/10000` of the
approximate triple `[0.9216, 0.9451, 0.0784]` quoted by the spec. -/
theorem c9_color_decode :
    get_3_f32color_from_int 0x00FFFFFF = [1, 1, 1] ∧
    get_3_f32color_from_int 0x00000000 = [0, 0, 0] ∧
    get_3_f32color_from_int 0x00FF0000 = [1, 0, 0] ∧
    get_3_f32color_from_int 0x0000FF00 = [0, 1, 0] ∧
    get_3_f32color_from_int 0x000000FF = [0, 0, 1] ∧
    get_3_f32color_from_int 0x00EBF114 = [235/255, 241/255, 20/255] ∧
    |(235 : ℚ)/255 - 9216/10000| ≤ 1/10000 ∧
    |(241 : ℚ)/255 - 9451/10000| ≤ 1/10000 ∧
    |(20 : ℚ)/255 - 784/10000| ≤ 1/10000 := by
  refine ⟨?_, ?_, ?_, ?_, ?_, ?_, ?_, ?_, ?_⟩ <;>
    first
    | (simp only [get_3_f32color_from_int, Int.fdiv, Int.emod, Int.tmod] ; norm_num)
    | (rw [abs_sub_le_iff] ; constructor <;> norm_num)

theorem run_stack_ops_append (l1 : List StackOp) : ∀ (d : Nat) (l2 : List StackOp),
    run_stack_ops d (l1 ++ l2) = (run_stack_ops d l1).bind (fun d2 => run_stack_ops d2 l2) := by
  induction l1 with
  | nil => intro d l2; rfl
  | cons op rest ih =>
    intro d l2
    cases op with
    | push => simpa [run_stack_ops] using ih (d + 1) l2
    | pop =>
      cases d with
      | zero => rfl
      | succ d2 => simpa [run_stack_ops] using ih d2 l2

theorem run_stack_ops_flatMap_const {α : Type} (g : α → List StackOp) (d : Nat) :
    ∀ (xs : List α), (∀ x ∈ xs, run_stack_ops d (g x) = some d) →
      run_stack_ops d (xs.flatMap g) = some d := by
  intro xs
  induction xs with
  | nil => intro _; rfl
  | cons a rest ih =>
    intro h
    rw [List.flatMap_cons, run_stack_ops_append, h a (List.mem_cons_self a rest)]
    exact ih (fun x hx => h x (List.mem_cons_of_mem a hx))

theorem run_stack_ops_fg_segment (f : CrtFilters) (d : Nat) :
    run_stack_ops d
      (((List.range (match f.color_channels with | .Combined => 1 | _ => 3)).flatMap (fun _ =>
          if f.color_channels = ColorChannels.Overlapping then [StackOp.push] else [])) ++
        (if f.color_channels = ColorChannels.Overlapping then [StackOp.pop, .pop, .pop] else [])) = some d := by
  cases f.color_channels <;> rfl

/-- C2: for every filter state (any colour-channel mode, any lines-per-pixel
count, any layering flags, any blur pass count) the draw sequence issues
balanced buffer-stack pushes and pops with no underflow, so the stack is
empty at the end-of-frame check and `assert_no_stack` never fires — for the
`draw` of src/src/simulation_program.rs, and for both stacks of
`SimulationDrawer::draw` in
src/rust/display-sim-webgl-render/src/simulation_draw.rs. -/
theorem run_stack_ops_drawer_segment (df : DrawerFilters) (d : Nat) :
    run_stack_ops d
      (((List.range df.color_splits).flatMap (fun _ =>
          if df.color_channels = ColorChannels.Overlapping then [StackOp.push] else [])) ++
        (if df.color_channels = ColorChannels.Overlapping then [StackOp.pop, .pop, .pop] else [])) = some d := by
  rcases df with ⟨h, v, cc, bg, bp⟩
  cases cc <;> rfl

/-- C2: for every filter state (any colour-channel mode, any lines-per-pixel
count, any layering flags, any blur pass count) the draw sequence issues
balanced buffer-stack pushes and pops with no underflow, so the stack is
empty at the end-of-frame check and `assert_no_stack` never fires — for the
`draw` of src/src/simulation_program.rs, and for both stacks of
`SimulationDrawer::draw` in
src/rust/display-sim-webgl-render/src/simulation_draw.rs. -/
theorem c2_stack_balance (f : CrtFilters) (df : DrawerFilters) :
    run_stack_ops 0 (draw_stack_ops f) = some 0 ∧
    run_stack_ops 0 (drawer_main_stack_ops df) = some 0 ∧
    run_stack_ops 0 (drawer_bg_stack_ops df) = some 0 := by
  have hpush : ∀ (d : Nat) (rest : List StackOp),
      run_stack_ops d (.push :: rest) = run_stack_ops (d + 1) rest := fun _ _ => rfl
  refine ⟨?_, ?_, ?_⟩
  · unfold draw_stack_ops
    simp only [List.cons_append, List.nil_append, List.append_assoc, blur_stack_ops, ite_self]
    rw [hpush, hpush]
    cases hfg : f.showing_diffuse_foreground
    · simp only [Bool.false_eq_true, if_false, List.nil_append]
      rfl
    · simp only [if_true]
      rw [run_stack_ops_append, run_stack_ops_flatMap_const _ 2 _
        (fun x _ => run_stack_ops_fg_segment f 2)]
      rfl
  · unfold drawer_main_stack_ops
    simp only [List.cons_append, List.nil_append, List.append_assoc, blur_stack_ops, ite_self]
    rw [hpush, hpush]
    rw [run_stack_ops_append, run_stack_ops_flatMap_const _ 2 _ (fun x _ =>
      run_stack_ops_flatMap_const _ 2 _ (fun y _ => run_stack_ops_drawer_segment df 2))]
    rfl
  · unfold drawer_bg_stack_ops
    cases hbg : df.showing_background
    · rfl
    · rfl

/-- C5: on a just-pressed edge of the next-colour-representation button the
mode advances exactly one step along the cycle Combined → Overlapping →
SplitHorizontal → SplitVertical → Combined, exactly one descriptive top
message is dispatched, and four successive edges return to the starting
mode. -/
theorem c5_color_representation_cycle (cc : ColorChannels) :
    (update_color_representation cc true).1 =
      (match cc with
       | ColorChannels.Combined => ColorChannels.Overlapping
       | ColorChannels.Overlapping => ColorChannels.SplitHorizontal
       | ColorChannels.SplitHorizontal => ColorChannels.SplitVertical
       | ColorChannels.SplitVertical => ColorChannels.Combined) ∧
    (update_color_representation cc true).2 =
      [⟨"app-event.top_message", .str ("Pixel color representation: " ++
        (match cc with
         | ColorChannels.Combined => "horizontal overlapping"
         | ColorChannels.Overlapping => "horizontal split"
         | ColorChannels.SplitHorizontal => "vertical split"
         | ColorChannels.SplitVertical => "combined") ++ ".")⟩] ∧
    (fun c => (update_color_representation c true).1)^[4] cc = cc := by
  cases cc <;> exact ⟨rfl, rfl, rfl⟩

/-- C4: with blur passes 0, no custom event and an increase-blur edge, the
next state has blur passes 1 with exactly the "Blur level: 1" message and
one blur-level-changed notification carrying 1; with a decrease-blur edge
instead, blur passes stay 0 and only the minimum-value message is emitted,
with no blur-level-changed notification. -/
theorem c4_blur_scenarios (f : CrtFilters) (input : Input)
    (hkind : input.custom_event.kind = "") :
    (f.blur_passes = 0 → input.increase_blur.is_just_pressed = true →
      input.decrease_blur.is_just_pressed = false →
      (update_blur f input).state.blur_passes = 1 ∧
      (update_blur f input).events =
        [⟨"app-event.top_message", .str "Blur level: 1"⟩,
         ⟨"app-event.change_blur_level", .int 1⟩] ∧
      ((update_blur f input).events.filter (fun e => e.id = "app-event.change_blur_level")) =
        [⟨"app-event.change_blur_level", .int 1⟩]) ∧
    (f.blur_passes = 0 → input.decrease_blur.is_just_pressed = true →
      input.increase_blur.is_just_pressed = false →
      (update_blur f input).state.blur_passes = 0 ∧
      (update_blur f input).events = [⟨"app-event.top_message", .str "Minimum value is 0"⟩] ∧
      ((update_blur f input).events.filter (fun e => e.id = "app-event.change_blur_level")) = []) := by
  constructor
  · intro h0 hinc hdec
    simp only [update_blur, hkind, hinc, hdec, h0, if_true, Bool.false_eq_true, if_false]
    rw [if_neg (by decide : ¬ (("" : String) = "event_kind:blur_level"))]
    exact ⟨rfl, rfl, rfl⟩
  · intro h0 hdec hinc
    simp only [update_blur, hkind, hinc, hdec, h0, if_true, Bool.false_eq_true, if_false]
    rw [if_neg (by decide : ¬ (("" : String) = "event_kind:blur_level"))]
    exact ⟨rfl, rfl, rfl⟩

/-- Concrete instances of both C4 scenarios. -/
theorem c4_witness :
    (update_blur (CrtFilters.new pixel_manipulation_base_speed) blurIncInput).state.blur_passes = 1 ∧
    (update_blur (CrtFilters.new pixel_manipulation_base_speed) blurDecInput).state.blur_passes = 0 :=
  ⟨((c4_blur_scenarios (CrtFilters.new pixel_manipulation_base_speed) blurIncInput rfl).1 rfl rfl rfl).1,
   ((c4_blur_scenarios (CrtFilters.new pixel_manipulation_base_speed) blurDecInput rfl).2 rfl rfl rfl).1⟩

theorem change_speed_fn_fst (input : Input) (cur base : ℚ) (tm ei : String) :
    (change_speed_fn input cur base tm ei).1 =
      (let c1 := if input.speed_up.is_just_pressed && decide (cur < 10000) then cur * 2 else cur
       if input.speed_down.is_just_pressed && decide (c1 > 1/100) then c1 / 2 else c1) := by
  rfl

theorem change_speed_fn_bounds (input : Input) (cur base : ℚ) (tm ei : String)
    (hlo : 1/200 < cur) (hhi : cur < 20000) :
    1/200 < (change_speed_fn input cur base tm ei).1 ∧
      (change_speed_fn input cur base tm ei).1 < 20000 := by
  rw [change_speed_fn_fst]
  simp only [Bool.and_eq_true, decide_eq_true_eq]
  split_ifs with h1 h2 h2 <;>
    first
    | (constructor <;> linarith [h1.2, h2.2])
    | (constructor <;> linarith)

theorem change_speed_fn_double (input : Input) (cur base : ℚ) (tm ei : String)
    (hup : input.speed_up.is_just_pressed = true) (hdown : input.speed_down.is_just_pressed = false)
    (hlt : cur < 10000) :
    (change_speed_fn input cur base tm ei).1 = cur * 2 := by
  rw [change_speed_fn_fst]
  simp [hup, hdown, hlt]

theorem update_speeds_alt (res : Resources) (input : Input)
    (halt : input.alt = true) (hrs : input.reset_speeds = false) :
    (update_speeds res input).state = res := by
  simp only [update_speeds, halt, hrs, if_true, Bool.false_eq_true, if_false]

theorem update_speeds_shift_fields (res : Resources) (input : Input)
    (halt : input.alt = false) (hs : input.shift = true) (hrs : input.reset_speeds = false) :
    (update_speeds res input).state.camera = res.camera ∧
    (update_speeds res input).state.crt_filters.change_speed =
      (change_speed_fn input res.crt_filters.change_speed pixel_manipulation_base_speed
        "Pixel manipulation speed: " "app-event.change_pixel_speed").1 := by
  simp only [update_speeds, halt, hs, hrs, Bool.false_eq_true, if_false, if_true]
  exact ⟨trivial, trivial⟩

theorem update_speeds_neither_fields (res : Resources) (input : Input)
    (halt : input.alt = false) (hs : input.shift = false) (hrs : input.reset_speeds = false) :
    (update_speeds res input).state.camera.turning_speed =
      (change_speed_fn input res.camera.turning_speed turning_base_speed
        "Turning camera speed: " "app-event.change_turning_speed").1 ∧
    (update_speeds res input).state.camera.movement_speed =
      (change_speed_fn input res.camera.movement_speed res.initial_parameters.initial_movement_speed
        "Translation camera speed: " "app-event.change_movement_speed").1 ∧
    (update_speeds res input).state.crt_filters = res.crt_filters := by
  simp only [update_speeds, halt, hs, hrs, Bool.false_eq_true, if_false]
  exact ⟨trivial, trivial, trivial⟩

theorem update_speeds_reset (res : Resources) (input : Input)
    (hrs : input.reset_speeds = true) :
    (update_speeds res input).state.camera.turning_speed = turning_base_speed ∧
    (update_speeds res input).state.camera.movement_speed =
      res.initial_parameters.initial_movement_speed ∧
    (update_speeds res input).state.crt_filters.change_speed = pixel_manipulation_base_speed := by
  simp only [update_speeds, hrs, if_true]
  split_ifs <;> refine ⟨?_, ?_, ?_⟩ <;> first | rfl | trivial

/-- C7 fails as stated: with turning speed 6144 (reachable from the base
speed 3 by eleven speed-up edges) and one more speed-up edge without
modifiers, the committed turning speed is 12288, outside the claimed
`[0.01, 10000]` bound — the guard only forbids doubling once the speed has
already reached 10000. -/
theorem c7_counterexample :
    (update_speeds fastTurnResources speedUpInput).state.camera.turning_speed = 12288 ∧
    ¬ ((update_speeds fastTurnResources speedUpInput).state.camera.turning_speed ≤ 10000) := by
  have h := (update_speeds_neither_fields fastTurnResources speedUpInput rfl rfl rfl).1
  rw [change_speed_fn_double speedUpInput _ _ _ _ rfl rfl
    (by rw [show fastTurnResources.camera.turning_speed = (6144 : ℚ) from rfl] ; norm_num)] at h
  rw [h, show fastTurnResources.camera.turning_speed = (6144 : ℚ) from rfl]
  norm_num

/-- C7 amended: each speed stays within the open interval (0.005, 20000)
because doubling is guarded by `< 10000` and halving by `> 0.01` (the
claimed closed bound [0.01, 10000] can be overshot by one final doubling or
halving); with `alt` held no speed changes at all (that branch is commented
out in the source); with `shift` only the filter-change speed changes; with
no modifier only the turning and movement speeds change (doubling on an
isolated speed-up edge below 10000); and `reset_speeds` restores all three
initial values in the same tick. -/
theorem c7_speeds_amended (res : Resources) (input : Input) :
    (1/200 < res.camera.turning_speed → res.camera.turning_speed < 20000 →
      input.reset_speeds = false →
      1/200 < (update_speeds res input).state.camera.turning_speed ∧
      (update_speeds res input).state.camera.turning_speed < 20000) ∧
    (1/200 < res.camera.movement_speed → res.camera.movement_speed < 20000 →
      input.reset_speeds = false →
      1/200 < (update_speeds res input).state.camera.movement_speed ∧
      (update_speeds res input).state.camera.movement_speed < 20000) ∧
    (1/200 < res.crt_filters.change_speed → res.crt_filters.change_speed < 20000 →
      input.reset_speeds = false →
      1/200 < (update_speeds res input).state.crt_filters.change_speed ∧
      (update_speeds res input).state.crt_filters.change_speed < 20000) ∧
    (input.alt = true → input.reset_speeds = false →
      (update_speeds res input).state = res) ∧
    (input.alt = false → input.shift = true → input.reset_speeds = false →
      (update_speeds res input).state.camera = res.camera) ∧
    (input.alt = false → input.shift = false → input.reset_speeds = false →
      (update_speeds res input).state.crt_filters = res.crt_filters) ∧
    (input.alt = false → input.shift = false → input.reset_speeds = false →
      input.speed_up.is_just_pressed = true → input.speed_down.is_just_pressed = false →
      res.camera.turning_speed < 10000 →
      (update_speeds res input).state.camera.turning_speed = res.camera.turning_speed * 2) ∧
    (input.alt = false → input.shift = true → input.reset_speeds = false →
      input.speed_up.is_just_pressed = true → input.speed_down.is_just_pressed = false →
      res.crt_filters.change_speed < 10000 →
      (update_speeds res input).state.crt_filters.change_speed = res.crt_filters.change_speed * 2) ∧
    (input.reset_speeds = true →
      (update_speeds res input).state.camera.turning_speed = turning_base_speed ∧
      (update_speeds res input).state.camera.movement_speed =
        res.initial_parameters.initial_movement_speed ∧
      (update_speeds res input).state.crt_filters.change_speed = pixel_manipulation_base_speed) := by
  refine ⟨?_, ?_, ?_, ?_, ?_, ?_, ?_, ?_, ?_⟩
  · intro hlo hhi hrs
    cases halt : input.alt
    · cases hs : input.shift
      · rw [(update_speeds_neither_fields res input halt hs hrs).1]
        exact change_speed_fn_bounds input _ _ _ _ hlo hhi
      · rw [congrArg Camera.turning_speed (update_speeds_shift_fields res input halt hs hrs).1]
        exact ⟨hlo, hhi⟩
    · rw [update_speeds_alt res input halt hrs]
      exact ⟨hlo, hhi⟩
  · intro hlo hhi hrs
    cases halt : input.alt
    · cases hs : input.shift
      · rw [(update_speeds_neither_fields res input halt hs hrs).2.1]
        exact change_speed_fn_bounds input _ _ _ _ hlo hhi
      · rw [congrArg Camera.movement_speed (update_speeds_shift_fields res input halt hs hrs).1]
        exact ⟨hlo, hhi⟩
    · rw [update_speeds_alt res input halt hrs]
      exact ⟨hlo, hhi⟩
  · intro hlo hhi hrs
    cases halt : input.alt
    · cases hs : input.shift
      · rw [congrArg CrtFilters.change_speed (update_speeds_neither_fields res input halt hs hrs).2.2]
        exact ⟨hlo, hhi⟩
      · rw [(update_speeds_shift_fields res input halt hs hrs).2]
        exact change_speed_fn_bounds input _ _ _ _ hlo hhi
    · rw [update_speeds_alt res input halt hrs]
      exact ⟨hlo, hhi⟩
  · exact fun halt hrs => update_speeds_alt res input halt hrs
  · exact fun halt hs hrs => (update_speeds_shift_fields res input halt hs hrs).1
  · exact fun halt hs hrs => (update_speeds_neither_fields res input halt hs hrs).2.2
  · intro halt hs hrs hup hdown hlt
    rw [(update_speeds_neither_fields res input halt hs hrs).1]
    exact change_speed_fn_double input _ _ _ _ hup hdown hlt
  · intro halt hs hrs hup hdown hlt
    rw [(update_speeds_shift_fields res input halt hs hrs).2]
    exact change_speed_fn_double input _ _ _ _ hup hdown hlt
  · exact fun hrs => update_speeds_reset res input hrs

/-- Concrete instance of the amended C7: a speed-up edge doubles the base
turning speed 3 to 6 under no modifiers, within bounds. -/
theorem c7_witness :
    (update_speeds baseResources speedUpInput).state.camera.turning_speed =
      baseResources.camera.turning_speed * 2 ∧
    1/200 < (update_speeds baseResources speedUpInput).state.camera.turning_speed ∧
    (update_speeds baseResources speedUpInput).state.camera.turning_speed < 20000 :=
  ⟨(c7_speeds_amended baseResources speedUpInput).2.2.2.2.2.2.1 rfl rfl rfl rfl rfl
      (by rw [show baseResources.camera.turning_speed = (3 : ℚ) from rfl] ; norm_num),
   (c7_speeds_amended baseResources speedUpInput).1
      (by rw [show baseResources.camera.turning_speed = (3 : ℚ) from rfl] ; norm_num)
      (by rw [show baseResources.camera.turning_speed = (3 : ℚ) from rfl] ; norm_num) rfl⟩

theorem update_colors_bright_bounds (dt : ℚ) (f : CrtFilters) (input : Input)
    (hlo : -1 ≤ f.extra_bright) (hhi : f.extra_bright ≤ 1) :
    -1 ≤ (update_colors_bright dt f input).1 ∧ (update_colors_bright dt f input).1 ≤ 1 := by
  simp only [update_colors_bright]
  cases hb : (input.increase_bright || input.decrease_bright)
  · rcases Bool.or_eq_false_iff.mp hb with ⟨h1, h2⟩
    simp only [hb, h1, h2, bright_raw, Bool.false_eq_true, if_false]
    exact ⟨hlo, hhi⟩
  · simp only [hb, if_true, bright_raw]
    split_ifs <;> constructor <;> first | linarith | norm_num

theorem update_colors_contrast_bounds (dt : ℚ) (f : CrtFilters) (input : Input)
    (hlo : 0 ≤ f.extra_contrast) (hhi : f.extra_contrast ≤ 20) :
    0 ≤ (update_colors_contrast dt f input).1 ∧ (update_colors_contrast dt f input).1 ≤ 20 := by
  simp only [update_colors_contrast]
  cases hb : (input.increase_contrast || input.decrease_contrast)
  · rcases Bool.or_eq_false_iff.mp hb with ⟨h1, h2⟩
    simp only [hb, h1, h2, contrast_raw, Bool.false_eq_true, if_false]
    exact ⟨hlo, hhi⟩
  · simp only [hb, if_true, contrast_raw]
    split_ifs <;> constructor <;> first | linarith | norm_num

theorem update_colors_bright_state (dt : ℚ) (f : CrtFilters) (input : Input)
    (hk : input.custom_event.kind ≠ "event_kind:pixel_brightness") :
    (update_colors dt f input).state.extra_bright = (update_colors_bright dt f input).1 := by
  simp only [update_colors]
  rw [if_neg hk]
  rcases hval : input.custom_event.value.as_f64 with _ | v <;>
    simp only [hval] <;> split_ifs <;> rfl

theorem update_colors_contrast_state (dt : ℚ) (f : CrtFilters) (input : Input)
    (hk : input.custom_event.kind ≠ "event_kind:pixel_contrast") :
    (update_colors dt f input).state.extra_contrast = (update_colors_contrast dt f input).1 := by
  simp only [update_colors]
  rcases hval : input.custom_event.value.as_f64 with _ | v <;>
    simp only [hval] <;> split_ifs <;> rfl

theorem bright_msgs_not_in_contrast (dt : ℚ) (f : CrtFilters) (input : Input) :
    (⟨"app-event.top_message", EvVal.str "Minimum value is -1.0"⟩ : Ev) ∉
      (update_colors_contrast dt f input).2 ∧
    (⟨"app-event.top_message", EvVal.str "Maximum value is +1.0"⟩ : Ev) ∉
      (update_colors_contrast dt f input).2 := by
  simp only [update_colors_contrast]
  split_ifs <;> constructor <;> simp

theorem contrast_msgs_not_in_bright (dt : ℚ) (f : CrtFilters) (input : Input) :
    (⟨"app-event.top_message", EvVal.str "Minimum value is 0.0"⟩ : Ev) ∉
      (update_colors_bright dt f input).2 ∧
    (⟨"app-event.top_message", EvVal.str "Maximum value is 20.0"⟩ : Ev) ∉
      (update_colors_bright dt f input).2 := by
  simp only [update_colors_bright]
  split_ifs <;> constructor <;> simp

theorem update_colors_events_split (dt : ℚ) (f : CrtFilters) (input : Input) :
    (update_colors dt f input).events =
      (update_colors_bright dt f input).2 ++ (update_colors_contrast dt f input).2 ∨
    (update_colors dt f input).events =
      (update_colors_bright dt f input).2 ++ (update_colors_contrast dt f input).2 ++
        [⟨"app-event.top_message", .str "Color changed."⟩] := by
  simp only [update_colors]
  rcases hval : input.custom_event.value.as_f64 with _ | v <;>
    simp only [hval] <;> split_ifs <;> first | exact Or.inl rfl | exact Or.inr rfl

theorem update_colors_bright_msg_bridge (dt : ℚ) (f : CrtFilters) (input : Input) :
    ((⟨"app-event.top_message", EvVal.str "Minimum value is -1.0"⟩ : Ev) ∈ (update_colors dt f input).events ∨
     (⟨"app-event.top_message", EvVal.str "Maximum value is +1.0"⟩ : Ev) ∈ (update_colors dt f input).events) ↔
    ((⟨"app-event.top_message", EvVal.str "Minimum value is -1.0"⟩ : Ev) ∈ (update_colors_bright dt f input).2 ∨
     (⟨"app-event.top_message", EvVal.str "Maximum value is +1.0"⟩ : Ev) ∈ (update_colors_bright dt f input).2) := by
  rcases update_colors_events_split dt f input with h | h <;>
    rw [h] <;>
    simp [List.mem_append, (bright_msgs_not_in_contrast dt f input).1,
      (bright_msgs_not_in_contrast dt f input).2]

theorem update_colors_contrast_msg_bridge (dt : ℚ) (f : CrtFilters) (input : Input) :
    ((⟨"app-event.top_message", EvVal.str "Minimum value is 0.0"⟩ : Ev) ∈ (update_colors dt f input).events ∨
     (⟨"app-event.top_message", EvVal.str "Maximum value is 20.0"⟩ : Ev) ∈ (update_colors dt f input).events) ↔
    ((⟨"app-event.top_message", EvVal.str "Minimum value is 0.0"⟩ : Ev) ∈ (update_colors_contrast dt f input).2 ∨
     (⟨"app-event.top_message", EvVal.str "Maximum value is 20.0"⟩ : Ev) ∈ (update_colors_contrast dt f input).2) := by
  rcases update_colors_events_split dt f input with h | h <;>
    rw [h] <;>
    simp [List.mem_append, (contrast_msgs_not_in_bright dt f input).1,
      (contrast_msgs_not_in_bright dt f input).2]

theorem update_colors_bright_boundary_iff (dt : ℚ) (f : CrtFilters) (input : Input) :
    ((⟨"app-event.top_message", EvVal.str "Minimum value is -1.0"⟩ : Ev) ∈ (update_colors_bright dt f input).2 ∨
     (⟨"app-event.top_message", EvVal.str "Maximum value is +1.0"⟩ : Ev) ∈ (update_colors_bright dt f input).2) ↔
    ((input.increase_bright = true ∨ input.decrease_bright = true) ∧
      (bright_raw dt f input < -1 ∨ bright_raw dt f input > 1)) := by
  simp only [update_colors_bright]
  cases hb : (input.increase_bright || input.decrease_bright)
  · rcases Bool.or_eq_false_iff.mp hb with ⟨h1, h2⟩
    simp [h1, h2]
  · rcases Bool.or_eq_true_iff.mp hb with h | h <;>
      (simp only [hb, if_true]
       split_ifs with h1 h2 <;> simp_all)

theorem update_colors_contrast_boundary_iff (dt : ℚ) (f : CrtFilters) (input : Input) :
    ((⟨"app-event.top_message", EvVal.str "Minimum value is 0.0"⟩ : Ev) ∈ (update_colors_contrast dt f input).2 ∨
     (⟨"app-event.top_message", EvVal.str "Maximum value is 20.0"⟩ : Ev) ∈ (update_colors_contrast dt f input).2) ↔
    ((input.increase_contrast = true ∨ input.decrease_contrast = true) ∧
      (contrast_raw dt f input < 0 ∨ contrast_raw dt f input > 20)) := by
  simp only [update_colors_contrast]
  cases hb : (input.increase_contrast || input.decrease_contrast)
  · rcases Bool.or_eq_false_iff.mp hb with ⟨h1, h2⟩
    simp [h1, h2]
  · rcases Bool.or_eq_true_iff.mp hb with h | h <;>
      (simp only [hb, if_true]
       split_ifs with h1 h2 <;> simp_all)

theorem min1_ne_lines_msg (s : String) : "Minimum value is 1" ≠ ("Lines per pixel: " ++ s) := by
  intro hcontra
  have h2 := congrArg String.data hcontra
  simp [String.data_append] at h2

theorem max20_ne_lines_msg (s : String) : "Maximum value is 20" ≠ ("Lines per pixel: " ++ s) := by
  intro hcontra
  have h2 := congrArg String.data hcontra
  simp [String.data_append] at h2

theorem lpp_clamp_notify_char (last_lpp l3 : Nat) (evs1 : List Ev) (f : CrtFilters)
    (hm1 : (⟨"app-event.top_message", EvVal.str "Minimum value is 1"⟩ : Ev) ∉ evs1)
    (hm2 : (⟨"app-event.top_message", EvVal.str "Maximum value is 20"⟩ : Ev) ∉ evs1) :
    (lpp_clamp_notify last_lpp l3 evs1 f).state.lines_per_pixel =
      (if l3 < 1 then 1 else if l3 > 20 then 20 else l3) ∧
    (((⟨"app-event.top_message", EvVal.str "Minimum value is 1"⟩ : Ev) ∈ (lpp_clamp_notify last_lpp l3 evs1 f).events ∨
      (⟨"app-event.top_message", EvVal.str "Maximum value is 20"⟩ : Ev) ∈ (lpp_clamp_notify last_lpp l3 evs1 f).events) ↔
      (l3 < 1 ∨ l3 > 20)) ∧
    (lpp_clamp_notify last_lpp l3 evs1 f).error = none := by
  simp only [lpp_clamp_notify]
  split_ifs <;>
    simp_all [List.mem_append, min1_ne_lines_msg, max20_ne_lines_msg]

theorem update_lpp_form (f : CrtFilters) (input : Input)
    (h : (update_lpp f input).error = none) :
    update_lpp f input =
      lpp_clamp_notify f.lines_per_pixel (lpp_raw f input)
        (if input.custom_event.kind = "event_kind:lines_per_pixel" then
          [⟨"app-event.change_lines_per_pixel", .int (lpp_raw f input : Int)⟩]
         else []) f := by
  by_cases hk : input.custom_event.kind = "event_kind:lines_per_pixel"
  · rcases hval : input.custom_event.value.as_f64 with _ | v
    · exfalso
      simp only [update_lpp] at h
      rw [if_pos hk] at h
      simp [hval] at h
    · simp only [update_lpp, lpp_raw]
      rw [if_pos hk, if_pos hk, if_pos hk, hval]
  · simp only [update_lpp, lpp_raw]
    rw [if_neg hk, if_neg hk, if_neg hk]

theorem update_lpp_char (f : CrtFilters) (input : Input)
    (h : (update_lpp f input).error = none) :
    (update_lpp f input).state.lines_per_pixel =
      (if lpp_raw f input < 1 then 1 else if lpp_raw f input > 20 then 20 else lpp_raw f input) ∧
    (((⟨"app-event.top_message", EvVal.str "Minimum value is 1"⟩ : Ev) ∈ (update_lpp f input).events ∨
      (⟨"app-event.top_message", EvVal.str "Maximum value is 20"⟩ : Ev) ∈ (update_lpp f input).events) ↔
      (lpp_raw f input < 1 ∨ lpp_raw f input > 20)) := by
  rw [update_lpp_form f input h]
  have hchar := lpp_clamp_notify_char f.lines_per_pixel (lpp_raw f input)
    (if input.custom_event.kind = "event_kind:lines_per_pixel" then
      [⟨"app-event.change_lines_per_pixel", .int (lpp_raw f input : Int)⟩]
     else []) f (by split_ifs <;> simp) (by split_ifs <;> simp)
  exact ⟨hchar.1, hchar.2.1⟩

theorem update_lpp_bounds (f : CrtFilters) (input : Input)
    (h : (update_lpp f input).error = none) :
    1 ≤ (update_lpp f input).state.lines_per_pixel ∧
      (update_lpp f input).state.lines_per_pixel ≤ 20 := by
  rw [(update_lpp_char f input h).1]
  split_ifs <;> omega

theorem change_pixel_sizes_commit_char (before_size c3 : ℚ) (event_id : String) :
    (change_pixel_sizes_commit before_size c3 event_id).state =
      (if c3 ≠ before_size then (if c3 < 0 then 0 else c3) else c3) ∧
    ((⟨"app-event.top_message", EvVal.str "Minimum value is 0.0"⟩ : Ev) ∈
        (change_pixel_sizes_commit before_size c3 event_id).events ↔
      (c3 ≠ before_size ∧ c3 < 0)) ∧
    (change_pixel_sizes_commit before_size c3 event_id).error = none := by
  simp only [change_pixel_sizes_commit]
  split_ifs <;> simp_all

theorem change_pixel_sizes_char (input : Input) (increase decrease : Bool) (cur vel : ℚ)
    (event_id event_kind : String)
    (h : (change_pixel_sizes input increase decrease cur vel event_id event_kind).error = none) :
    ((change_pixel_sizes input increase decrease cur vel event_id event_kind).state =
      (if pixel_size_raw input increase decrease cur vel event_kind ≠ cur then
        (if pixel_size_raw input increase decrease cur vel event_kind < 0 then 0
         else pixel_size_raw input increase decrease cur vel event_kind)
       else pixel_size_raw input increase decrease cur vel event_kind)) ∧
    ((⟨"app-event.top_message", EvVal.str "Minimum value is 0.0"⟩ : Ev) ∈
        (change_pixel_sizes input increase decrease cur vel event_id event_kind).events ↔
      (pixel_size_raw input increase decrease cur vel event_kind ≠ cur ∧
        pixel_size_raw input increase decrease cur vel event_kind < 0)) := by
  by_cases hk : input.custom_event.kind = event_kind
  · rcases hval : input.custom_event.value.as_f64 with _ | v
    · exfalso
      simp only [change_pixel_sizes] at h
      rw [if_pos hk, hval] at h
      simp at h
    · have hform : change_pixel_sizes input increase decrease cur vel event_id event_kind =
          change_pixel_sizes_commit cur v event_id := by
        simp only [change_pixel_sizes]
        rw [if_pos hk, hval]
      have hraw : pixel_size_raw input increase decrease cur vel event_kind = v := by
        simp only [pixel_size_raw]
        rw [if_pos hk, hval]
      rw [hform, hraw]
      exact ⟨(change_pixel_sizes_commit_char cur v event_id).1,
        (change_pixel_sizes_commit_char cur v event_id).2.1⟩
  · have hform : change_pixel_sizes input increase decrease cur vel event_id event_kind =
        change_pixel_sizes_commit cur
          (if decrease then (if increase then cur + vel else cur) - vel
           else (if increase then cur + vel else cur)) event_id := by
      simp only [change_pixel_sizes]
      rw [if_neg hk]
    have hraw : pixel_size_raw input increase decrease cur vel event_kind =
        (if decrease then (if increase then cur + vel else cur) - vel
         else (if increase then cur + vel else cur)) := by
      simp only [pixel_size_raw]
      rw [if_neg hk]
    rw [hform, hraw]
    exact ⟨(change_pixel_sizes_commit_char cur _ event_id).1,
      (change_pixel_sizes_commit_char cur _ event_id).2.1⟩

theorem change_pixel_sizes_nonneg (input : Input) (increase decrease : Bool) (cur vel : ℚ)
    (event_id event_kind : String)
    (h : (change_pixel_sizes input increase decrease cur vel event_id event_kind).error = none)
    (hc : 0 ≤ cur) :
    0 ≤ (change_pixel_sizes input increase decrease cur vel event_id event_kind).state := by
  rw [(change_pixel_sizes_char input increase decrease cur vel event_id event_kind h).1]
  split_ifs with h1 h2
  · norm_num
  · linarith
  · rw [not_ne_iff.mp h1]
    exact hc

/-- C1 fails as stated: a custom-event brightness override carrying 5.0
commits `extra_bright = 5`, outside the documented bounds `[-1, 1]`, with no
boundary notification and no error — the override branch returns before the
clamping section. -/
theorem c1_counterexample :
    (update_colors 0 (CrtFilters.new pixel_manipulation_base_speed) brightOverrideInput).state.extra_bright = 5 ∧
    ¬ ((update_colors 0 (CrtFilters.new pixel_manipulation_base_speed) brightOverrideInput).state.extra_bright ≤ 1) ∧
    (update_colors 0 (CrtFilters.new pixel_manipulation_base_speed) brightOverrideInput).events = [] ∧
    (update_colors 0 (CrtFilters.new pixel_manipulation_base_speed) brightOverrideInput).error = none := by
  refine ⟨rfl, ?_, rfl, rfl⟩
  rw [show (update_colors 0 (CrtFilters.new pixel_manipulation_base_speed) brightOverrideInput).state.extra_bright
    = (5 : ℚ) from rfl]
  norm_num

/-- C1 amended: the key-progression paths are clamped with a boundary
notification exactly when clamping altered the raw computed value
(brightness to [-1, 1], contrast to [0, 20]); lines per pixel is clamped to
[1, 20] on every error-free tick including custom-event overrides, with the
boundary message exactly when the raw value lay outside; the four pixel-size
parameters are clamped below at 0 (they have no upper bound), with the
minimum message exactly when the changed raw value was negative.  However, a
custom-event override of brightness or contrast bypasses clamping entirely
(the counterexample), so their bounds are only preserved on ticks without
such an override. -/
theorem c1_params_amended :
    (∀ (dt : ℚ) (f : CrtFilters) (input : Input),
      input.custom_event.kind ≠ "event_kind:pixel_brightness" →
      -1 ≤ f.extra_bright → f.extra_bright ≤ 1 →
      -1 ≤ (update_colors dt f input).state.extra_bright ∧
        (update_colors dt f input).state.extra_bright ≤ 1) ∧
    (∀ (dt : ℚ) (f : CrtFilters) (input : Input),
      ((⟨"app-event.top_message", EvVal.str "Minimum value is -1.0"⟩ : Ev) ∈ (update_colors dt f input).events ∨
       (⟨"app-event.top_message", EvVal.str "Maximum value is +1.0"⟩ : Ev) ∈ (update_colors dt f input).events) ↔
      ((input.increase_bright = true ∨ input.decrease_bright = true) ∧
        (bright_raw dt f input < -1 ∨ bright_raw dt f input > 1))) ∧
    (∀ (dt : ℚ) (f : CrtFilters) (input : Input),
      input.custom_event.kind ≠ "event_kind:pixel_contrast" →
      0 ≤ f.extra_contrast → f.extra_contrast ≤ 20 →
      0 ≤ (update_colors dt f input).state.extra_contrast ∧
        (update_colors dt f input).state.extra_contrast ≤ 20) ∧
    (∀ (dt : ℚ) (f : CrtFilters) (input : Input),
      ((⟨"app-event.top_message", EvVal.str "Minimum value is 0.0"⟩ : Ev) ∈ (update_colors dt f input).events ∨
       (⟨"app-event.top_message", EvVal.str "Maximum value is 20.0"⟩ : Ev) ∈ (update_colors dt f input).events) ↔
      ((input.increase_contrast = true ∨ input.decrease_contrast = true) ∧
        (contrast_raw dt f input < 0 ∨ contrast_raw dt f input > 20))) ∧
    (∀ (f : CrtFilters) (input : Input),
      (update_lpp f input).error = none →
      1 ≤ (update_lpp f input).state.lines_per_pixel ∧
        (update_lpp f input).state.lines_per_pixel ≤ 20) ∧
    (∀ (f : CrtFilters) (input : Input),
      (update_lpp f input).error = none →
      (((⟨"app-event.top_message", EvVal.str "Minimum value is 1"⟩ : Ev) ∈ (update_lpp f input).events ∨
        (⟨"app-event.top_message", EvVal.str "Maximum value is 20"⟩ : Ev) ∈ (update_lpp f input).events) ↔
        (lpp_raw f input < 1 ∨ lpp_raw f input > 20))) ∧
    (∀ (input : Input) (increase decrease : Bool) (cur vel : ℚ) (event_id event_kind : String),
      (change_pixel_sizes input increase decrease cur vel event_id event_kind).error = none →
      (0 ≤ cur → 0 ≤ (change_pixel_sizes input increase decrease cur vel event_id event_kind).state) ∧
      ((⟨"app-event.top_message", EvVal.str "Minimum value is 0.0"⟩ : Ev) ∈
          (change_pixel_sizes input increase decrease cur vel event_id event_kind).events ↔
        (pixel_size_raw input increase decrease cur vel event_kind ≠ cur ∧
          pixel_size_raw input increase decrease cur vel event_kind < 0))) := by
  refine ⟨?_, ?_, ?_, ?_, ?_, ?_, ?_⟩
  · intro dt f input hk hlo hhi
    rw [update_colors_bright_state dt f input hk]
    exact update_colors_bright_bounds dt f input hlo hhi
  · intro dt f input
    rw [update_colors_bright_msg_bridge dt f input]
    exact update_colors_bright_boundary_iff dt f input
  · intro dt f input hk hlo hhi
    rw [update_colors_contrast_state dt f input hk]
    exact update_colors_contrast_bounds dt f input hlo hhi
  · intro dt f input
    rw [update_colors_contrast_msg_bridge dt f input]
    exact update_colors_contrast_boundary_iff dt f input
  · exact fun f input h => update_lpp_bounds f input h
  · exact fun f input h => (update_lpp_char f input h).2
  · intro input increase decrease cur vel event_id event_kind h
    exact ⟨fun hc => change_pixel_sizes_nonneg input increase decrease cur vel event_id event_kind h hc,
      (change_pixel_sizes_char input increase decrease cur vel event_id event_kind h).2⟩

/-- Concrete instances of the amended C1: the idle tick keeps brightness,
contrast and lines per pixel inside their bounds. -/
theorem c1_witness :
    (-1 ≤ (update_colors 0 (CrtFilters.new pixel_manipulation_base_speed) baseInput).state.extra_bright ∧
      (update_colors 0 (CrtFilters.new pixel_manipulation_base_speed) baseInput).state.extra_bright ≤ 1) ∧
    (0 ≤ (update_colors 0 (CrtFilters.new pixel_manipulation_base_speed) baseInput).state.extra_contrast ∧
      (update_colors 0 (CrtFilters.new pixel_manipulation_base_speed) baseInput).state.extra_contrast ≤ 20) ∧
    (1 ≤ (update_lpp (CrtFilters.new pixel_manipulation_base_speed) baseInput).state.lines_per_pixel ∧
      (update_lpp (CrtFilters.new pixel_manipulation_base_speed) baseInput).state.lines_per_pixel ≤ 20) :=
  ⟨c1_params_amended.1 0 (CrtFilters.new pixel_manipulation_base_speed) baseInput
      (by decide) (by norm_num [CrtFilters.new]) (by norm_num [CrtFilters.new]),
   c1_params_amended.2.2.1 0 (CrtFilters.new pixel_manipulation_base_speed) baseInput
      (by decide) (by norm_num [CrtFilters.new]) (by norm_num [CrtFilters.new]),
   c1_params_amended.2.2.2.2.1 (CrtFilters.new pixel_manipulation_base_speed) baseInput rfl⟩

theorem update_blur_bad_payload (f : CrtFilters) (input : Input)
    (hk : input.custom_event.kind = "event_kind:blur_level")
    (hval : input.custom_event.value.as_f64 = none) :
    (update_blur f input).error = some "it should be a number" ∧
    (update_blur f input).state.blur_passes =
      (let b1 := if input.increase_blur.is_just_pressed then f.blur_passes + 1 else f.blur_passes
       if input.decrease_blur.is_just_pressed then (if b1 > 0 then b1 - 1 else b1) else b1) := by
  simp only [update_blur]
  rw [if_pos hk, hval]
  exact ⟨rfl, by split_ifs <;> rfl⟩

theorem update_colors_no_error_other_kind (dt : ℚ) (f : CrtFilters) (input : Input)
    (h1 : input.custom_event.kind ≠ "event_kind:pixel_brightness")
    (h2 : input.custom_event.kind ≠ "event_kind:pixel_contrast")
    (h3 : input.custom_event.kind ≠ "event_kind:light_color")
    (h4 : input.custom_event.kind ≠ "event_kind:brightness_color") :
    (update_colors dt f input).error = none := by
  simp only [update_colors]
  rw [if_neg h1, if_neg h2, if_neg h3, if_neg h4]

theorem update_colors_blur_lpp_frame (dt : ℚ) (f : CrtFilters) (input : Input) :
    (update_colors dt f input).state.blur_passes = f.blur_passes ∧
    (update_colors dt f input).state.lines_per_pixel = f.lines_per_pixel := by
  simp only [update_colors]
  rcases hval : input.custom_event.value.as_f64 with _ | v <;>
    simp only [hval] <;> split_ifs <;> exact ⟨rfl, rfl⟩

theorem update_blur_lpp_frame (f : CrtFilters) (input : Input) :
    (update_blur f input).state.lines_per_pixel = f.lines_per_pixel := by
  simp only [update_blur]
  rcases hval : input.custom_event.value.as_f64 with _ | v <;>
    simp only [hval] <;> split_ifs <;> rfl

theorem update_timers_crt_frame (res : Resources) (input : Input) :
    (update_timers_and_dt res input).res.crt_filters = res.crt_filters := by
  simp only [update_timers_and_dt]
  split_ifs <;> rfl

theorem update_animation_crt_frame (res : Resources) (input : Input) :
    (update_animation_buffer res input).crt_filters = res.crt_filters := by
  simp only [update_animation_buffer]
  split_ifs <;> rfl

theorem update_sim_stage1_blur_bad (res : Resources) (input : Input)
    (hk : input.custom_event.kind = "event_kind:blur_level")
    (hval : input.custom_event.value.as_f64 = none) :
    (update_sim_stage1 res input).error = some "it should be a number" ∧
    (update_sim_stage1 res input).res.crt_filters.blur_passes =
      (let b1 := if input.increase_blur.is_just_pressed then res.crt_filters.blur_passes + 1
                 else res.crt_filters.blur_passes
       if input.decrease_blur.is_just_pressed then (if b1 > 0 then b1 - 1 else b1) else b1) ∧
    (update_sim_stage1 res input).res.crt_filters.lines_per_pixel =
      res.crt_filters.lines_per_pixel := by
  have hframe : (update_animation_buffer (update_timers_and_dt res input).res input).crt_filters
      = res.crt_filters := by
    rw [update_animation_crt_frame, update_timers_crt_frame]
  have hcerr := update_colors_no_error_other_kind (update_timers_and_dt res input).dt
    res.crt_filters input
    (by rw [hk] ; decide) (by rw [hk] ; decide) (by rw [hk] ; decide) (by rw [hk] ; decide)
  have hcframe := update_colors_blur_lpp_frame (update_timers_and_dt res input).dt
    res.crt_filters input
  have hberr := update_blur_bad_payload
    (update_colors (update_timers_and_dt res input).dt res.crt_filters input).state input hk hval
  simp only [update_sim_stage1, hframe, hcerr, Option.isSome_none, Bool.false_eq_true, if_false,
    hberr.1, Option.isSome_some, if_true]
  refine ⟨?_, ?_, ?_⟩
  · first | rfl | trivial
  · rw [hberr.2]
    simp only [hcframe.1]
  · rw [update_blur_lpp_frame]
    simp only [hcframe.2]

theorem update_simulation_stage1_error (res : Resources) (input : Input)
    (h : (update_sim_stage1 res input).error.isSome = true) :
    (update_simulation res input).error = (update_sim_stage1 res input).error ∧
    (update_simulation res input).res = (update_sim_stage1 res input).res ∧
    (update_simulation res input).keep_running = true := by
  simp only [update_simulation, h, if_true]
  refine ⟨?_, ?_, ?_⟩ <;> first | rfl | trivial

/-- C3 fails as stated: with blur passes 0, an increase-blur edge and a
malformed (string) blur-level custom event, the tick's update returns the
expected error but the committed state is not the tick-start state — the
blur increment performed before the failing parse stays committed. -/
theorem c3_counterexample :
    (update_simulation baseResources blurBadInput).error = some "it should be a number" ∧
    (update_simulation baseResources blurBadInput).res.crt_filters.blur_passes = 1 ∧
    (update_simulation baseResources blurBadInput).res ≠ baseResources := by
  have hp := update_sim_stage1_blur_bad baseResources blurBadInput rfl rfl
  have hs := update_simulation_stage1_error baseResources blurBadInput (by rw [hp.1] ; rfl)
  have hblur : (update_simulation baseResources blurBadInput).res.crt_filters.blur_passes = 1 := by
    rw [hs.2.1, hp.2.1]
    decide
  refine ⟨by rw [hs.1, hp.1], hblur, ?_⟩
  intro heq
  rw [heq] at hblur
  exact absurd hblur (by decide)

/-- C3 amended: a malformed numeric-field override payload makes the tick's
update return the documented error and the remaining update steps are
skipped, but the update operates on the live state, so mutations performed
before the failing parse (here the edge-driven blur increment) remain
committed — the state is not rolled back to its tick-start value. -/
theorem c3_amended (res : Resources) (input : Input)
    (hk : input.custom_event.kind = "event_kind:blur_level")
    (hval : input.custom_event.value.as_f64 = none) :
    (update_simulation res input).error = some "it should be a number" ∧
    (update_simulation res input).res.crt_filters.blur_passes =
      (let b1 := if input.increase_blur.is_just_pressed then res.crt_filters.blur_passes + 1
                 else res.crt_filters.blur_passes
       if input.decrease_blur.is_just_pressed then (if b1 > 0 then b1 - 1 else b1) else b1) ∧
    (update_simulation res input).res.crt_filters.lines_per_pixel =
      res.crt_filters.lines_per_pixel := by
  have hp := update_sim_stage1_blur_bad res input hk hval
  have hs := update_simulation_stage1_error res input (by rw [hp.1] ; rfl)
  exact ⟨by rw [hs.1, hp.1], by rw [hs.2.1] ; exact hp.2.1, by rw [hs.2.1] ; exact hp.2.2⟩

/-- Concrete instance of the amended C3. -/
theorem c3_witness :
    (update_simulation baseResources blurBadInput).error = some "it should be a number" ∧
    (update_simulation baseResources blurBadInput).res.crt_filters.lines_per_pixel =
      baseResources.crt_filters.lines_per_pixel :=
  ⟨(c3_amended baseResources blurBadInput rfl rfl).1,
   (c3_amended baseResources blurBadInput rfl rfl).2.2⟩

theorem update_colors_bad_payload (dt : ℚ) (f : CrtFilters) (input : Input)
    (hk : input.custom_event.kind = "event_kind:pixel_brightness")
    (hval : input.custom_event.value.as_f64 = none) :
    (update_colors dt f input).error = some "it should be a number" := by
  simp only [update_colors]
  rw [if_pos hk, hval]

theorem update_blur_no_error (f : CrtFilters) (input : Input)
    (hk : input.custom_event.kind ≠ "event_kind:blur_level") :
    (update_blur f input).error = none := by
  simp only [update_blur]
  rw [if_neg hk]
  split_ifs <;> rfl

theorem lpp_clamp_notify_no_error (last_lpp l3 : Nat) (evs1 : List Ev) (f : CrtFilters) :
    (lpp_clamp_notify last_lpp l3 evs1 f).error = none := by
  simp only [lpp_clamp_notify]
  split_ifs <;> rfl

theorem update_lpp_no_error (f : CrtFilters) (input : Input)
    (hk : input.custom_event.kind ≠ "event_kind:lines_per_pixel") :
    (update_lpp f input).error = none := by
  simp only [update_lpp]
  rw [if_neg hk]
  exact lpp_clamp_notify_no_error _ _ _ _

theorem update_sim_stage1_no_error (res : Resources) (input : Input)
    (hk : input.custom_event.kind = "") :
    (update_sim_stage1 res input).error = none := by
  have hc := update_colors_no_error_other_kind (update_timers_and_dt res input).dt
    res.crt_filters input
    (by rw [hk] ; decide) (by rw [hk] ; decide) (by rw [hk] ; decide) (by rw [hk] ; decide)
  have hframe : (update_animation_buffer (update_timers_and_dt res input).res input).crt_filters
      = res.crt_filters := by
    rw [update_animation_crt_frame, update_timers_crt_frame]
  have hb := update_blur_no_error
    (update_colors (update_timers_and_dt res input).dt res.crt_filters input).state input
    (by rw [hk] ; decide)
  have hl := update_lpp_no_error
    (update_blur (update_colors (update_timers_and_dt res input).dt res.crt_filters input).state input).state
    input (by rw [hk] ; decide)
  simp only [update_sim_stage1, hframe, hc, hb, hl, Option.isSome_none, Bool.false_eq_true, if_false]

theorem update_pixel_pulse_no_error (dt : ℚ) (f : CrtFilters) (input : Input) :
    (update_pixel_pulse dt f input).error = none := by
  simp only [update_pixel_pulse]

theorem change_pixel_sizes_no_error (input : Input) (increase decrease : Bool) (cur vel : ℚ)
    (event_id event_kind : String) (hk : input.custom_event.kind ≠ event_kind) :
    (change_pixel_sizes input increase decrease cur vel event_id event_kind).error = none := by
  simp only [change_pixel_sizes]
  rw [if_neg hk]
  exact (change_pixel_sizes_commit_char _ _ _).2.2

theorem update_crt_filters_no_error (dt : ℚ) (res : Resources) (input : Input)
    (hk : input.custom_event.kind = "") :
    (update_crt_filters dt res input).error = none := by
  have e1 : ∀ (inc dec : Bool) (cur vel : ℚ),
      (change_pixel_sizes input inc dec cur vel "app-event.change_pixel_vertical_gap"
        "event_kind:pixel_vertical_gap").error = none :=
    fun _ _ _ _ => change_pixel_sizes_no_error _ _ _ _ _ _ _ (by rw [hk] ; decide)
  have e2 : ∀ (inc dec : Bool) (cur vel : ℚ),
      (change_pixel_sizes input inc dec cur vel "app-event.change_pixel_horizontal_gap"
        "event_kind:pixel_horizontal_gap").error = none :=
    fun _ _ _ _ => change_pixel_sizes_no_error _ _ _ _ _ _ _ (by rw [hk] ; decide)
  have e3 : ∀ (inc dec : Bool) (cur vel : ℚ),
      (change_pixel_sizes input inc dec cur vel "app-event.change_pixel_width"
        "event_kind:pixel_width").error = none :=
    fun _ _ _ _ => change_pixel_sizes_no_error _ _ _ _ _ _ _ (by rw [hk] ; decide)
  have e4 : ∀ (inc dec : Bool) (cur vel : ℚ),
      (change_pixel_sizes input inc dec cur vel "app-event.change_pixel_spread"
        "event_kind:pixel_spread").error = none :=
    fun _ _ _ _ => change_pixel_sizes_no_error _ _ _ _ _ _ _ (by rw [hk] ; decide)
  simp only [update_crt_filters, e1, e2, e3, e4, Option.isSome_none, Bool.false_eq_true, if_false]
  split_ifs <;> rfl

theorem update_camera_custom_no_error (cam : Camera) (input : Input)
    (hk : input.custom_event.kind = "") :
    (update_camera_custom cam input).error = none := by
  simp only [update_camera_custom]
  rw [if_neg (by rw [hk] ; decide), if_neg (by rw [hk] ; decide), if_neg (by rw [hk] ; decide),
    if_neg (by rw [hk] ; decide), if_neg (by rw [hk] ; decide), if_neg (by rw [hk] ; decide),
    if_neg (by rw [hk] ; decide), if_neg (by rw [hk] ; decide), if_neg (by rw [hk] ; decide),
    if_neg (by rw [hk] ; decide)]

theorem update_camera_no_error (dt : ℚ) (res : Resources) (input : Input)
    (hk : input.custom_event.kind = "") :
    (update_camera dt res input).error = none := by
  have hcc : ∀ cam : Camera, (update_camera_custom cam input).error = none :=
    fun cam => update_camera_custom_no_error cam input hk
  simp only [update_camera, hcc, Option.isSome_none, Bool.false_eq_true, if_false]

theorem update_speeds_no_error (res : Resources) (input : Input) :
    (update_speeds res input).error = none := by
  simp only [update_speeds]
  split_ifs <;> rfl

theorem update_simulation_no_custom (res : Resources) (input : Input)
    (hk : input.custom_event.kind = "") :
    (update_simulation res input).error = none ∧
    (update_simulation res input).keep_running = !input.esc.is_just_pressed := by
  have hp := update_sim_stage1_no_error res input hk
  simp only [update_simulation, hp, Option.isSome_none, Bool.false_eq_true, if_false]
  cases hesc : input.esc.is_just_pressed
  · simp only [hesc, Bool.false_eq_true, if_false, Bool.not_false]
    have hf := update_crt_filters_no_error (update_sim_stage1 res input).dt
      { (update_sim_stage1 res input).res with
        crt_filters := (update_pixel_pulse (update_sim_stage1 res input).dt
          (update_sim_stage1 res input).res.crt_filters input).state } input hk
    simp only [hf, Option.isSome_none, Bool.false_eq_true, if_false]
    have hcam := update_camera_no_error (update_sim_stage1 res input).dt
      (update_speeds (update_crt_filters (update_sim_stage1 res input).dt
        { (update_sim_stage1 res input).res with
          crt_filters := (update_pixel_pulse (update_sim_stage1 res input).dt
            (update_sim_stage1 res input).res.crt_filters input).state } input).state input).state
      input hk
    simp only [hcam, Option.isSome_none, Bool.false_eq_true, if_false]
    exact ⟨trivial, trivial⟩
  · simp only [hesc, if_true, Bool.not_true]
    exact ⟨trivial, trivial⟩

theorem update_simulation_keep_iff (res : Resources) (input : Input) :
    ((update_simulation res input).error = none ∧ (update_simulation res input).keep_running = false) ↔
    (input.esc.is_just_pressed = true ∧ (update_sim_stage1 res input).error = none) := by
  simp only [update_simulation]
  cases herr : (update_sim_stage1 res input).error with
  | some e =>
    simp only [herr, Option.isSome_some, if_true]
    simp
  | none =>
    simp only [herr, Option.isSome_none, Bool.false_eq_true, if_false]
    cases hesc : input.esc.is_just_pressed
    · simp only [hesc, Bool.false_eq_true, if_false]
      split_ifs <;> simp
    · simp only [hesc, if_true]

theorem update_simulation_exit_event (res : Resources) (input : Input)
    (hesc : input.esc.is_just_pressed = true)
    (hpre : (update_sim_stage1 res input).error = none) :
    (update_simulation res input).events =
      (update_sim_stage1 res input).events ++ [⟨"app-event.exiting_session", .unit⟩] := by
  simp only [update_simulation, hpre, Option.isSome_none, Bool.false_eq_true, if_false, hesc,
    if_true]

theorem program_iteration_no_draw (now : ℚ) (res : Resources) (input : Input)
    (h : (program_iteration now res input).keep = false) :
    (program_iteration now res input).drew = false := by
  simp only [program_iteration] at h ⊢
  split_ifs at h ⊢ <;> simp_all

theorem run_loop_cons (res : Resources) (input : Input) (t : ℚ × (Input → Input))
    (rest : List (ℚ × (Input → Input))) :
    run_loop res input (t :: rest) =
      program_iteration t.1 res (t.2 input) ::
        (if (program_iteration t.1 res (t.2 input)).keep then
          run_loop (program_iteration t.1 res (t.2 input)).res
            (program_iteration t.1 res (t.2 input)).input rest
        else []) := by
  cases t
  rfl

theorem run_loop_stops (res : Resources) (input : Input) (ticks : List (ℚ × (Input → Input))) :
    ∀ (i : Nat) (rec : IterOut), (run_loop res input ticks).get? i = some rec →
      rec.keep = false →
      rec.drew = false ∧ (run_loop res input ticks).length = i + 1 := by
  induction ticks generalizing res input with
  | nil => intro i rec hget; simp [run_loop] at hget
  | cons t rest ih =>
    intro i rec hget hkeep
    rw [run_loop_cons] at hget ⊢
    cases i with
    | zero =>
      rw [List.get?_cons_zero, Option.some.injEq] at hget
      subst hget
      refine ⟨program_iteration_no_draw t.1 res (t.2 input) hkeep, ?_⟩
      simp [hkeep]
    | succ j =>
      rw [List.get?_cons_succ] at hget
      cases hk : (program_iteration t.1 res (t.2 input)).keep with
      | false =>
        exfalso
        rw [if_neg (by simp [hk])] at hget
        simp at hget
      | true =>
        rw [if_pos hk] at hget
        rw [if_pos rfl]
        have hrec := ih (program_iteration t.1 res (t.2 input)).res
          (program_iteration t.1 res (t.2 input)).input j rec hget hkeep
        exact ⟨hrec.1, by simp [hrec.2]⟩

/-- C6 fails as stated: on a tick whose input has escape just-pressed but
also carries a malformed brightness override, the update aborts with the
parse error before reaching the escape check — no terminate signal and no
exiting-session notification are produced although escape was just
pressed. -/
theorem c6_counterexample :
    escBadInput.esc.is_just_pressed = true ∧
    (update_simulation baseResources escBadInput).error = some "it should be a number" ∧
    ¬ ((update_simulation baseResources escBadInput).error = none ∧
       (update_simulation baseResources escBadInput).keep_running = false) := by
  have hframe : (update_animation_buffer (update_timers_and_dt baseResources escBadInput).res
      escBadInput).crt_filters = baseResources.crt_filters := by
    rw [update_animation_crt_frame, update_timers_crt_frame]
  have hcerr := update_colors_bad_payload (update_timers_and_dt baseResources escBadInput).dt
    baseResources.crt_filters escBadInput rfl rfl
  have hp : (update_sim_stage1 baseResources escBadInput).error = some "it should be a number" := by
    simp only [update_sim_stage1, hframe, hcerr, Option.isSome_some, if_true]
  have hs := update_simulation_stage1_error baseResources escBadInput (by rw [hp] ; rfl)
  refine ⟨rfl, by rw [hs.1, hp], ?_⟩
  intro hcon
  rw [hs.1, hp] at hcon
  exact Option.some_ne_none _ hcon.1

/-- C6 amended: `update` returns the terminate signal iff escape is
just-pressed on that tick AND no step before the escape check failed on a
malformed payload (such a failure aborts the tick with an error instead of a
terminate signal); on termination the exiting-session notification is
appended to the tick's events; a tick that does not schedule another frame
never draws; and in the frame loop, any tick that terminates (or errors) is
the last one executed and does not draw, so `draw` runs neither on that tick
nor on any later one. -/
theorem c6_terminate (res : Resources) (input : Input) (now : ℚ)
    (ticks : List (ℚ × (Input → Input))) :
    (((update_simulation res input).error = none ∧
        (update_simulation res input).keep_running = false) ↔
      (input.esc.is_just_pressed = true ∧ (update_sim_stage1 res input).error = none)) ∧
    (input.esc.is_just_pressed = true → (update_sim_stage1 res input).error = none →
      (update_simulation res input).events =
        (update_sim_stage1 res input).events ++ [⟨"app-event.exiting_session", .unit⟩]) ∧
    ((program_iteration now res input).keep = false →
      (program_iteration now res input).drew = false) ∧
    (∀ (i : Nat) (rec : IterOut), (run_loop res input ticks).get? i = some rec →
      rec.keep = false →
      rec.drew = false ∧ (run_loop res input ticks).length = i + 1) :=
  ⟨update_simulation_keep_iff res input,
   update_simulation_exit_event res input,
   program_iteration_no_draw now res input,
   run_loop_stops res input ticks⟩

/-- Concrete instance of the amended C6: with escape just-pressed and no
custom event, the update terminates with the exiting-session notification
appended. -/
theorem c6_witness :
    ((update_simulation baseResources escInput).error = none ∧
      (update_simulation baseResources escInput).keep_running = false) ∧
    (update_simulation baseResources escInput).events =
      (update_sim_stage1 baseResources escInput).events ++ [⟨"app-event.exiting_session", .unit⟩] :=
  ⟨(c6_terminate baseResources escInput 0 []).1.mpr
      ⟨rfl, update_sim_stage1_no_error baseResources escInput rfl⟩,
   (c6_terminate baseResources escInput 0 []).2.1 rfl
      (update_sim_stage1_no_error baseResources escInput rfl)⟩

/-- C8: `post_process_input` clears exactly the transient fields — the
scroll delta becomes 0, the mouse position (0,0), the custom-event kind the
empty string — and leaves every other input field (including the
custom-event value) unchanged; and on every tick whose update neither fails
nor terminates, the input committed for the next tick is exactly the
post-processed pre-processed input. -/
theorem c8_transient_reset :
    (∀ input : Input,
      post_process_input input =
        { input with mouse_scroll_y := 0, mouse_position_x := 0, mouse_position_y := 0,
                     custom_event := { input.custom_event with kind := "" } }) ∧
    (∀ input : Input,
      (post_process_input input).mouse_scroll_y = 0 ∧
      (post_process_input input).mouse_position_x = 0 ∧
      (post_process_input input).mouse_position_y = 0 ∧
      (post_process_input input).custom_event.kind = "" ∧
      (post_process_input input).custom_event.value = input.custom_event.value) ∧
    (∀ (now : ℚ) (res : Resources) (input : Input),
      (program_iteration now res input).error = none →
      (program_iteration now res input).keep = true →
      (program_iteration now res input).input =
        post_process_input (pre_process_input now input)) := by
  refine ⟨fun input => rfl, fun input => ⟨rfl, rfl, rfl, rfl, rfl⟩, ?_⟩
  intro now res input herr hkeep
  simp only [program_iteration] at herr hkeep ⊢
  split_ifs at herr hkeep ⊢ <;> simp_all

/-- Concrete instance of C8's call-site conjunct: a successful idle tick
commits the post-processed input. -/
theorem c8_witness :
    (program_iteration 0 baseResources baseInput).input =
      post_process_input (pre_process_input 0 baseInput) := by
  have hok := update_simulation_no_custom baseResources (pre_process_input 0 baseInput) rfl
  refine (c8_transient_reset.2.2 0 baseResources baseInput ?_ ?_)
  · simp only [program_iteration, hok.1, Option.isSome_none, Bool.false_eq_true, if_false]
    rw [show (update_simulation baseResources (pre_process_input 0 baseInput)).keep_running = true
      from by rw [hok.2] ; rfl]
    rfl
  · simp only [program_iteration, hok.1, Option.isSome_none, Bool.false_eq_true, if_false]
    rw [show (update_simulation baseResources (pre_process_input 0 baseInput)).keep_running = true
      from by rw [hok.2] ; rfl]
    rfl

end CrtSim
